import Mathlib

/-!
Verification of the bondking approval-workflow engine
(`src/bondking_app/models.py`) against its natural-language specification.

The Python model code is shallowly embedded: enumerated Django
`TextChoices` become inductive types, documents become structures over
those enums plus truthiness flags for the opaque fields the engine
inspects, and each state-mutating method becomes a pure function
returning `Except Err State`.  `PermissionDenied` and `ValidationError`
become the two constructors of `Err`, carrying the exact message text
built by the source.
-/

set_option maxRecDepth 10000

namespace Bondking

/-! ## Enumerated choices (models.py `TextChoices`) -/

inductive DeliveryStatus
  | NEW_DR
  | FOR_DELIVERY
  | DELIVERED
  deriving DecidableEq, Repr, Fintype

inductive PaymentStatus
  | NA
  | FOR_COUNTER_CREATION
  | FOR_COUNTERING
  | COUNTERED
  | FOR_COLLECTION
  | FOR_DEPOSIT
  | DEPOSITED
  deriving DecidableEq, Repr, Fintype

inductive PaymentMethod
  | CASH
  | DAYS_15
  | DAYS_30
  | DAYS_60
  | DAYS_90
  | DAYS_120
  deriving DecidableEq, Repr, Fintype

inductive ApprovalStatus
  | PENDING
  | APPROVED
  | DECLINED
  deriving DecidableEq, Repr, Fintype

inductive DeliveryMethod
  | DELIVERY
  | D2D_STOCKS
  | DOOR_TO_DOOR
  | SAMPLE
  deriving DecidableEq, Repr, Fintype

inductive POStatus
  | REQUEST_FOR_PAYMENT
  | REQUEST_FOR_PAYMENT_APPROVAL
  | PURCHASE_ORDER
  | PURCHASE_ORDER_APPROVAL
  | BILLING
  | PO_FILING
  | ARCHIVED
  deriving DecidableEq, Repr, Fintype

inductive POApprovalStatus
  | PENDING
  | APPROVED
  | DECLINED
  deriving DecidableEq, Repr, Fintype

inductive BillingStatus
  | CHECK_CREATION
  | CHECK_SIGNING
  | PAYMENT_RELEASE
  | PAID
  deriving DecidableEq, Repr, Fintype

/-! ## Actors and role resolution (models.py `get_user_role` et al.) -/

structure User where
  is_authenticated : Bool
  is_superuser : Bool
  groups : List String
  deriving DecidableEq, Repr

def user_in_group (u : User) (g : String) : Bool :=
  u.is_authenticated && u.groups.contains g

def get_user_role (u : User) : Option String :=
  if user_in_group u "SalesAgent" then some "SalesAgent"
  else if user_in_group u "SalesHead" then some "SalesHead"
  else if user_in_group u "LogisticsOfficer" then some "LogisticsOfficer"
  else if user_in_group u "LogisticsHead" then some "LogisticsHead"
  else if user_in_group u "AccountingOfficer" then some "AccountingOfficer"
  else if user_in_group u "AccountingHead" then some "AccountingHead"
  else if user_in_group u "TopManagement" then some "TopManagement"
  else none

def is_top_management (u : User) : Bool :=
  u.is_superuser || user_in_group u "TopManagement"

/-- `if simulated_role and is_top_management(user): actor_role = simulated_role
    else: actor_role = get_user_role(user)` -- the pattern shared by the
    DeliveryReceipt operations (an empty simulated role string is falsy). -/
def dr_actor_role (u : User) (simulated_role : Option String) : Option String :=
  match simulated_role with
  | some s => if s ≠ "" && is_top_management u then some s else get_user_role u
  | none => get_user_role u

/-! ## Errors: `PermissionDenied` / `ValidationError` with message text -/

inductive Err
  | permissionDenied (msg : String)
  | validationError (msg : String)
  deriving DecidableEq, Repr

/-! ## DR step metadata (models.py `DR_STEP_META`) -/

structure StepMeta where
  forward_roles : List String
  backward_roles : List String
  approver_roles : List String
  decliner_roles : List String
  required_before_forward : List String
  status_map_ds : Option DeliveryStatus
  status_map_ps : Option PaymentStatus
  approval_on_enter_forward : Bool
  auto_approve_on_enter_forward : Bool
  deriving DecidableEq, Repr

/-- The `.get(column, {})` default: empty metadata. -/
def emptyMeta : StepMeta :=
  ⟨[], [], [], [], [], none, none, true, false⟩

def DR_STEP_META (col : String) : Option StepMeta :=
  if col = "NEW_DR" then some
    { forward_roles := ["SalesAgent", "SalesHead", "TopManagement"]
      backward_roles := []
      approver_roles := ["SalesHead", "TopManagement"]
      decliner_roles := ["SalesHead", "TopManagement"]
      required_before_forward := []
      status_map_ds := some DeliveryStatus.NEW_DR
      status_map_ps := some PaymentStatus.NA
      approval_on_enter_forward := true
      auto_approve_on_enter_forward := false }
  else if col = "FOR_DELIVERY" then some
    { forward_roles := ["LogisticsOfficer", "LogisticsHead", "TopManagement"]
      backward_roles := ["SalesHead", "LogisticsHead", "TopManagement"]
      approver_roles := ["LogisticsHead", "TopManagement"]
      decliner_roles := ["LogisticsHead", "TopManagement"]
      required_before_forward := ["date_of_delivery"]
      status_map_ds := some DeliveryStatus.FOR_DELIVERY
      status_map_ps := some PaymentStatus.NA
      approval_on_enter_forward := true
      auto_approve_on_enter_forward := false }
  else if col = "DELIVERED" then some
    { forward_roles := ["LogisticsOfficer", "LogisticsHead", "TopManagement"]
      backward_roles := ["LogisticsHead", "TopManagement"]
      approver_roles := ["LogisticsHead", "TopManagement"]
      decliner_roles := []
      required_before_forward := []
      status_map_ds := some DeliveryStatus.DELIVERED
      status_map_ps := some PaymentStatus.NA
      approval_on_enter_forward := false
      auto_approve_on_enter_forward := true }
  else if col = "FOR_COUNTER_CREATION" then some
    { forward_roles := ["AccountingOfficer", "AccountingHead", "TopManagement"]
      backward_roles := ["AccountingHead", "TopManagement"]
      approver_roles := ["AccountingHead", "TopManagement"]
      decliner_roles := ["AccountingHead", "TopManagement"]
      required_before_forward := []
      status_map_ds := none
      status_map_ps := some PaymentStatus.FOR_COUNTER_CREATION
      approval_on_enter_forward := true
      auto_approve_on_enter_forward := false }
  else if col = "FOR_COUNTERING" then some
    { forward_roles := ["LogisticsOfficer", "LogisticsHead", "TopManagement"]
      backward_roles := ["LogisticsHead", "TopManagement"]
      approver_roles := ["LogisticsHead", "TopManagement"]
      decliner_roles := ["LogisticsHead", "TopManagement"]
      required_before_forward := []
      status_map_ds := none
      status_map_ps := some PaymentStatus.FOR_COUNTERING
      approval_on_enter_forward := true
      auto_approve_on_enter_forward := false }
  else if col = "COUNTERED" then some
    { forward_roles := ["AccountingOfficer", "AccountingHead", "TopManagement"]
      backward_roles := ["AccountingHead", "TopManagement"]
      approver_roles := ["AccountingHead", "TopManagement"]
      decliner_roles := ["AccountingHead", "TopManagement"]
      required_before_forward := []
      status_map_ds := none
      status_map_ps := some PaymentStatus.COUNTERED
      approval_on_enter_forward := true
      auto_approve_on_enter_forward := false }
  else if col = "FOR_COLLECTION" then some
    { forward_roles := ["LogisticsOfficer", "LogisticsHead", "TopManagement"]
      backward_roles := ["LogisticsHead", "TopManagement"]
      approver_roles := ["LogisticsHead", "TopManagement"]
      decliner_roles := ["LogisticsHead", "TopManagement"]
      required_before_forward := ["payment_details"]
      status_map_ds := none
      status_map_ps := some PaymentStatus.FOR_COLLECTION
      approval_on_enter_forward := true
      auto_approve_on_enter_forward := false }
  else if col = "FOR_DEPOSIT" then some
    { forward_roles := ["AccountingOfficer", "AccountingHead", "TopManagement"]
      backward_roles := ["AccountingHead", "TopManagement"]
      approver_roles := ["AccountingHead", "TopManagement"]
      decliner_roles := ["AccountingHead", "TopManagement"]
      required_before_forward := ["payment_details", "deposit_slip_no"]
      status_map_ds := none
      status_map_ps := some PaymentStatus.FOR_DEPOSIT
      approval_on_enter_forward := true
      auto_approve_on_enter_forward := false }
  else if col = "DEPOSITED" then some
    { forward_roles := []
      backward_roles := ["AccountingHead", "TopManagement"]
      approver_roles := []
      decliner_roles := []
      required_before_forward := []
      status_map_ds := none
      status_map_ps := some PaymentStatus.DEPOSITED
      approval_on_enter_forward := false
      auto_approve_on_enter_forward := true }
  else none

/-! ## Delivery receipt state

Opaque document fields that the engine only tests for Python truthiness
(`date_of_delivery`, `payment_details`, `deposit_slip_no`, `payment_due`)
are embedded as `Bool` flags: `true` iff the Python value is truthy
(a date is set / the text is non-empty).  The audit trail
(`DeliveryReceiptUpdate` rows, newest first) is carried in `updates`. -/

structure LogEntry where
  system_update : String
  user_notes : String
  deriving DecidableEq, Repr

structure DR where
  delivery_status : DeliveryStatus
  payment_status : PaymentStatus
  delivery_method : DeliveryMethod
  payment_method : PaymentMethod
  approval_status : ApprovalStatus
  is_archived : Bool
  is_cancelled : Bool
  date_of_delivery : Bool
  payment_details : Bool
  deposit_slip_no : Bool
  payment_due : Bool
  updates : List LogEntry
  deriving DecidableEq, Repr

/-- `getattr(self, field)` truthiness, for the fields named in
`required_before_forward` lists. -/
def drFieldTruthy (dr : DR) (field : String) : Bool :=
  if field = "date_of_delivery" then dr.date_of_delivery
  else if field = "payment_details" then dr.payment_details
  else if field = "deposit_slip_no" then dr.deposit_slip_no
  else if field = "payment_due" then dr.payment_due
  else true

/-- `DeliveryReceipt.get_current_column`. -/
def get_current_column (dr : DR) : String :=
  if dr.delivery_status = DeliveryStatus.NEW_DR then "NEW_DR"
  else if dr.delivery_status = DeliveryStatus.FOR_DELIVERY then "FOR_DELIVERY"
  else if dr.delivery_status = DeliveryStatus.DELIVERED ∧
          dr.payment_status = PaymentStatus.NA then "DELIVERED"
  else if dr.payment_status = PaymentStatus.FOR_COUNTER_CREATION then "FOR_COUNTER_CREATION"
  else if dr.payment_status = PaymentStatus.FOR_COUNTERING then "FOR_COUNTERING"
  else if dr.payment_status = PaymentStatus.COUNTERED then "COUNTERED"
  else if dr.payment_status = PaymentStatus.FOR_COLLECTION then "FOR_COLLECTION"
  else if dr.payment_status = PaymentStatus.FOR_DEPOSIT then "FOR_DEPOSIT"
  else if dr.payment_status = PaymentStatus.DEPOSITED then "DEPOSITED"
  else "NEW_DR"

/-- `DeliveryReceipt.dr_lifecycle_for` (static method). -/
def dr_lifecycle_for (dr : DR) : List String :=
  if dr.delivery_method = DeliveryMethod.D2D_STOCKS then ["D2D_STOCKS"]
  else if dr.delivery_method = DeliveryMethod.SAMPLE then
    ["NEW_DR", "FOR_DELIVERY", "DELIVERED"]
  else if dr.delivery_method = DeliveryMethod.DOOR_TO_DOOR ∧
          dr.payment_method = PaymentMethod.CASH then
    ["NEW_DR", "DELIVERED", "FOR_DEPOSIT", "DEPOSITED"]
  else if dr.delivery_method = DeliveryMethod.DOOR_TO_DOOR then
    ["NEW_DR", "DELIVERED", "FOR_COUNTER_CREATION", "FOR_COUNTERING", "COUNTERED",
     "FOR_COLLECTION", "FOR_DEPOSIT", "DEPOSITED"]
  else if dr.payment_method = PaymentMethod.CASH then
    ["NEW_DR", "FOR_DELIVERY", "DELIVERED", "FOR_DEPOSIT", "DEPOSITED"]
  else
    ["NEW_DR", "FOR_DELIVERY", "DELIVERED", "FOR_COUNTER_CREATION", "FOR_COUNTERING",
     "COUNTERED", "FOR_COLLECTION", "FOR_DEPOSIT", "DEPOSITED"]

/-- `DeliveryReceipt.get_lifecycle_steps` (instance method; the second,
independently written copy of the lifecycle table). -/
def get_lifecycle_steps (dr : DR) : List String :=
  if dr.delivery_method = DeliveryMethod.D2D_STOCKS then ["D2D_STOCKS"]
  else if dr.delivery_method = DeliveryMethod.SAMPLE then
    ["NEW_DR", "FOR_DELIVERY", "DELIVERED"]
  else if dr.delivery_method = DeliveryMethod.DOOR_TO_DOOR ∧
          dr.payment_method = PaymentMethod.CASH then
    ["NEW_DR", "DELIVERED", "FOR_DEPOSIT", "DEPOSITED"]
  else if dr.delivery_method = DeliveryMethod.DOOR_TO_DOOR then
    ["NEW_DR", "DELIVERED", "FOR_COUNTER_CREATION", "FOR_COUNTERING", "COUNTERED",
     "FOR_COLLECTION", "FOR_DEPOSIT", "DEPOSITED"]
  else if dr.payment_method = PaymentMethod.CASH then
    ["NEW_DR", "FOR_DELIVERY", "DELIVERED", "FOR_DEPOSIT", "DEPOSITED"]
  else
    ["NEW_DR", "FOR_DELIVERY", "DELIVERED", "FOR_COUNTER_CREATION", "FOR_COUNTERING",
     "COUNTERED", "FOR_COLLECTION", "FOR_DEPOSIT", "DEPOSITED"]

/-- Python `list.index` (only invoked after a membership check). -/
def idxOf {α : Type} [DecidableEq α] (xs : List α) (x : α) : Nat :=
  match xs with
  | [] => 0
  | y :: ys => if y = x then 0 else idxOf ys x + 1

/-- `DeliveryReceipt.save()` on an already-persisted row: the
classification-driven coercions (`dr_number` assignment needs no model
here because persisted rows always carry one, and the Door-to-Door
initialisation only runs on first insert, `not self.pk`). -/
def drModelSave (dr : DR) : DR :=
  if dr.delivery_method = DeliveryMethod.SAMPLE then
    { dr with payment_status := PaymentStatus.NA
              payment_due := false
              payment_details := false
              deposit_slip_no := false }
  else if dr.delivery_method = DeliveryMethod.D2D_STOCKS then
    { dr with approval_status := ApprovalStatus.APPROVED }
  else dr

/-- `DeliveryReceipt.log_update`: prepend (audit list is ordered newest
first, `ordering = ["-timestamp"]`). -/
def drLog (dr : DR) (message : String) (user_notes : String) : DR :=
  { dr with updates := ⟨message, user_notes⟩ :: dr.updates }

/-- `msg += f" Notes: {user_notes}"` when the notes are truthy. -/
def withNotes (msg : String) (user_notes : String) : String :=
  if user_notes ≠ "" then msg ++ " Notes: " ++ user_notes else msg

def CASH_ALLOWED : List String :=
  ["NEW_DR", "FOR_DELIVERY", "DELIVERED", "FOR_DEPOSIT", "DEPOSITED"]

/-- `allowed_back` table of the Cash backward rules. -/
def cashAllowedBack (col : String) : List String :=
  if col = "FOR_DEPOSIT" then ["DELIVERED"]
  else if col = "DELIVERED" then ["FOR_DELIVERY"]
  else if col = "FOR_DELIVERY" then ["NEW_DR"]
  else []

/-- The local `current_idx = lifecycle.index(current_column) if
current_column in lifecycle else 0` of `move_to_column`. -/
def drCurrentIdx (dr : DR) : Nat :=
  if get_current_column dr ∈ dr_lifecycle_for dr then
    idxOf (dr_lifecycle_for dr) (get_current_column dr)
  else 0

/-- The local `target_idx = lifecycle.index(target_column)`. -/
def drTargetIdx (dr : DR) (target_column : String) : Nat :=
  idxOf (dr_lifecycle_for dr) target_column

/-- The local `curr_meta = DR_STEP_META.get(current_column, {})`. -/
def drCurrMeta (dr : DR) : StepMeta :=
  (DR_STEP_META (get_current_column dr)).getD emptyMeta

/-- The local `allowed_roles` of `move_to_column` step 1, including the
Door-to-Door forward-from-DELIVERED override. -/
def drAllowedMoveRoles (dr : DR) (target_column : String) : List String :=
  if dr.delivery_method = DeliveryMethod.DOOR_TO_DOOR ∧
     get_current_column dr = "DELIVERED" ∧
     drTargetIdx dr target_column > drCurrentIdx dr then
    ["SalesAgent", "SalesHead", "TopManagement"]
  else if drTargetIdx dr target_column > drCurrentIdx dr then
    (drCurrMeta dr).forward_roles
  else
    (drCurrMeta dr).backward_roles

/-- The local `expected_next = lifecycle[current_idx + 1] if ... else None`. -/
def drExpectedNext (dr : DR) : Option String :=
  (dr_lifecycle_for dr).get? (drCurrentIdx dr + 1)

/-- The local `missing = [f for f in required_fields if not getattr(self, f)]`. -/
def drMissing (dr : DR) : List String :=
  (drCurrMeta dr).required_before_forward.filter (fun f => ¬ drFieldTruthy dr f)

/-- `DeliveryReceipt.move_to_column`.  The Python locals `lifecycle`,
`current_column`, `current_idx`, `target_idx`, `is_forward`, `is_backward`,
`curr_meta`, `allowed_roles`, `expected_next` and `missing` appear inlined
through the helper definitions above. -/
def move_to_column (user : User) (target_column : String) (user_notes : String)
    (simulated_role : Option String) (dr : DR) : Except Err DR :=
  match dr_actor_role user simulated_role with
  | none => .error (.permissionDenied "Your account does not have an assigned role.")
  | some actor_role =>
    if dr.delivery_method = DeliveryMethod.D2D_STOCKS then
      .error (.validationError "D2D Stocks DRs are not movable in the Kanban.")
    else if target_column ∉ dr_lifecycle_for dr then
      .error (.validationError "Invalid target column for this DR type.")
    else if get_current_column dr = target_column then .ok dr
    else if dr.delivery_method = DeliveryMethod.DOOR_TO_DOOR ∧
            target_column = "FOR_DELIVERY" then
      .error (.validationError "Door to Door DRs skip For Delivery.")
    else if dr.approval_status = ApprovalStatus.DECLINED ∧
            drTargetIdx dr target_column > drCurrentIdx dr then
      .error (.validationError "This DR was rejected and must be resolved before moving forward.")
    else if actor_role ∉ drAllowedMoveRoles dr target_column then
      .error (.permissionDenied
        ("Role " ++ actor_role ++ " not allowed to move from " ++ get_current_column dr))
    else if dr.payment_method = PaymentMethod.CASH ∧ target_column ∉ CASH_ALLOWED then
      .error (.validationError "Cash DRs cannot move into countering or collection steps.")
    else if drTargetIdx dr target_column > drCurrentIdx dr ∧
            dr.delivery_method = DeliveryMethod.DOOR_TO_DOOR ∧
            get_current_column dr = "NEW_DR" ∧ target_column = "DELIVERED" then
      -- Door-to-Door special forward rule: NEW_DR -> DELIVERED directly
      .ok (drLog
        (drModelSave
          { dr with delivery_status := DeliveryStatus.DELIVERED
                    payment_status := PaymentStatus.NA
                    approval_status := ApprovalStatus.PENDING })
        (withNotes ("Door-to-Door moved from NEW_DR to DELIVERED by " ++ actor_role ++ ".")
          user_notes)
        user_notes)
    else if drTargetIdx dr target_column > drCurrentIdx dr ∧
            some target_column ≠ drExpectedNext dr then
      .error (.validationError
        ("Invalid forward move. Allowed: " ++ (drExpectedNext dr).getD "none"))
    else if drTargetIdx dr target_column > drCurrentIdx dr ∧ drMissing dr ≠ [] then
      if get_current_column dr = "FOR_DELIVERY" ∧ target_column = "DELIVERED" ∧
         "date_of_delivery" ∈ drMissing dr then
        .error (.validationError "Please set the Delivery Date first.")
      else if get_current_column dr = "FOR_DEPOSIT" ∧ target_column = "DEPOSITED" ∧
              "payment_details" ∈ drMissing dr then
        .error (.validationError
          "Payment details must be provided before marking as Deposited.")
      else if get_current_column dr = "FOR_COUNTER_CREATION" ∧
              target_column = "FOR_COUNTERING" ∧ "payment_due" ∈ drMissing dr then
        .error (.validationError "Payment Due must be filled before moving to Countered.")
      else
        .error (.validationError
          ("Missing required fields: " ++ String.intercalate ", " (drMissing dr)))
    else if drTargetIdx dr target_column < drCurrentIdx dr ∧
            dr.delivery_method = DeliveryMethod.DOOR_TO_DOOR ∧
            get_current_column dr = "DELIVERED" ∧ target_column = "NEW_DR" then
      -- Door-to-Door special backward rule: DELIVERED -> NEW_DR only
      .ok (drLog
        (drModelSave
          { dr with delivery_status := DeliveryStatus.NEW_DR
                    payment_status := PaymentStatus.NA
                    approval_status := ApprovalStatus.PENDING })
        (withNotes ("Door-to-Door reverted from DELIVERED to NEW DR by " ++
          actor_role ++ ".") user_notes)
        user_notes)
    else if drTargetIdx dr target_column < drCurrentIdx dr ∧
            dr.payment_method = PaymentMethod.CASH ∧
            get_current_column dr = "DEPOSITED" ∧ target_column = "FOR_DEPOSIT" ∧
            ¬ user.is_superuser then
      .error (.validationError
        "Only superusers may move Cash DRs from Deposited to For Deposit.")
    else if drTargetIdx dr target_column < drCurrentIdx dr ∧
            dr.payment_method = PaymentMethod.CASH ∧
            ¬ (get_current_column dr = "DEPOSITED" ∧ target_column = "FOR_DEPOSIT") ∧
            target_column ∉ cashAllowedBack (get_current_column dr) then
      .error (.validationError
        ("Invalid backward move for Cash DRs: " ++ get_current_column dr ++ " → " ++
          target_column))
    else if drTargetIdx dr target_column < drCurrentIdx dr ∧
            dr.payment_method ≠ PaymentMethod.CASH ∧ drCurrentIdx dr = 0 then
      .error (.validationError "Cannot move back from the first column.")
    else if drTargetIdx dr target_column < drCurrentIdx dr ∧
            dr.payment_method ≠ PaymentMethod.CASH ∧
            target_column ≠ (dr_lifecycle_for dr).getD (drCurrentIdx dr - 1) "" then
      .error (.validationError
        ("You can only move back to " ++
          (dr_lifecycle_for dr).getD (drCurrentIdx dr - 1) "" ++ "."))
    else if drTargetIdx dr target_column < drCurrentIdx dr ∧
            get_current_column dr = "FOR_COUNTER_CREATION" ∧
            target_column = "DELIVERED" then
      -- special backward mapping: back to DELIVERED sets APPROVED
      .ok (drLog
        (drModelSave
          { dr with delivery_status := DeliveryStatus.DELIVERED
                    payment_status := PaymentStatus.NA
                    approval_status := ApprovalStatus.APPROVED })
        (withNotes ("Moved from " ++ get_current_column dr ++ " to " ++ target_column ++
          " as " ++ actor_role ++ ".") user_notes)
        user_notes)
    else
      match DR_STEP_META target_column with
      | none => .error (.validationError "Target column metadata missing.")
      | some tmeta =>
        -- status_map application plus the forward-entry approval rule
        .ok (drLog
          (drModelSave
            { dr with
                delivery_status := tmeta.status_map_ds.getD dr.delivery_status
                payment_status := tmeta.status_map_ps.getD dr.payment_status
                approval_status :=
                  if drTargetIdx dr target_column > drCurrentIdx dr then
                    if tmeta.auto_approve_on_enter_forward then ApprovalStatus.APPROVED
                    else if tmeta.approval_on_enter_forward then ApprovalStatus.PENDING
                    else dr.approval_status
                  else dr.approval_status })
          (withNotes ("Moved from " ++ get_current_column dr ++ " to " ++ target_column ++
            " as " ++ actor_role ++ ".") user_notes)
          user_notes)

/-- `DeliveryReceipt.approve_current_step`. -/
def approve_current_step (user : User) (user_notes : String)
    (simulated_role : Option String) (dr : DR) : Except Err DR :=
  match dr_actor_role user simulated_role with
  | none => .error (.permissionDenied "Your account does not have an assigned role.")
  | some actor_role =>
    if dr.approval_status ≠ ApprovalStatus.PENDING then
      .error (.validationError "This DR is not pending approval.")
    else if actor_role ∉ (drCurrMeta dr).approver_roles then
      .error (.permissionDenied
        ("Role " ++ actor_role ++ " is not allowed to approve in " ++
          get_current_column dr ++ "."))
    else
      .ok (drLog (drModelSave { dr with approval_status := ApprovalStatus.APPROVED })
        (withNotes ("Approved in column " ++ get_current_column dr ++ " as " ++
          actor_role ++ ".") user_notes)
        user_notes)

/-- The local `idx = lifecycle.index(current_column)` of
`decline_current_step` (only consulted after the membership check). -/
def drDeclineIdx (dr : DR) : Nat :=
  idxOf (dr_lifecycle_for dr) (get_current_column dr)

/-- The local `prev_column = lifecycle[idx - 1]` of `decline_current_step`. -/
def drPrevColumn (dr : DR) : String :=
  (dr_lifecycle_for dr).getD (drDeclineIdx dr - 1) ""

/-- `DeliveryReceipt.decline_current_step`. -/
def decline_current_step (user : User) (user_notes : String)
    (simulated_role : Option String) (dr : DR) : Except Err DR :=
  match dr_actor_role user simulated_role with
  | none => .error (.permissionDenied "Your account does not have an assigned role.")
  | some actor_role =>
    if dr.approval_status ≠ ApprovalStatus.PENDING then
      .error (.validationError "This DR is not pending approval.")
    else if actor_role ∉ (drCurrMeta dr).decliner_roles then
      .error (.permissionDenied
        ("Role " ++ actor_role ++ " is not allowed to decline in " ++
          get_current_column dr ++ "."))
    else if dr.delivery_method = DeliveryMethod.DOOR_TO_DOOR ∧
            dr.delivery_status = DeliveryStatus.DELIVERED then
      -- Door-to-Door delivered decline shortcut (saves, writes no audit entry)
      .ok (drModelSave
        { dr with delivery_status := DeliveryStatus.NEW_DR
                  payment_status := PaymentStatus.NA
                  approval_status := ApprovalStatus.APPROVED })
    else if get_current_column dr = "NEW_DR" then
      .ok (drLog (drModelSave { dr with approval_status := ApprovalStatus.DECLINED })
        (withNotes ("Declined in NEW_DR as " ++ actor_role ++
          ". Returned to Sales Agent for editing.") user_notes)
        user_notes)
    else if get_current_column dr ∉ dr_lifecycle_for dr then
      .error (.validationError "Invalid current column for this DR type.")
    else if dr.payment_method = PaymentMethod.CASH ∧
            get_current_column dr = "FOR_DEPOSIT" then
      -- cash DR declined in FOR_DEPOSIT goes back to DELIVERED
      .ok (drLog
        (drModelSave
          { dr with delivery_status := DeliveryStatus.DELIVERED
                    payment_status := PaymentStatus.NA
                    approval_status := ApprovalStatus.DECLINED })
        "Declined – moved back to Delivered (Cash rule)" "")
    else if drDeclineIdx dr = 0 then
      .error (.validationError "Cannot move back from the first column.")
    else
      match DR_STEP_META (drPrevColumn dr) with
      | none => .error (.validationError "Previous column metadata missing.")
      | some pmeta =>
        .ok (drLog
          (drModelSave
            { dr with
                delivery_status := pmeta.status_map_ds.getD dr.delivery_status
                payment_status := pmeta.status_map_ps.getD dr.payment_status
                approval_status := ApprovalStatus.DECLINED })
          (withNotes ("Declined in " ++ get_current_column dr ++ " as " ++ actor_role ++
            ". Moved back to " ++ drPrevColumn dr ++ " for clarification.") user_notes)
          user_notes)

/-! ## Purchase orders (models.py `PurchaseOrder`, `PO_META`, `Billing`) -/

structure Billing where
  amount : ℚ
  status : BillingStatus
  is_cancelled : Bool
  deriving DecidableEq, Repr

/-- Purchase order state.  `particulars` carries the nullable
`total_price` column of each `PurchaseOrderParticular` row; `total` is the
stored aggregate maintained by `recalc_total`. -/
structure PO where
  status : POStatus
  approval_status : POApprovalStatus
  is_archived : Bool
  is_cancelled : Bool
  total : ℚ
  particulars : List (Option ℚ)
  billings : List Billing
  po_number : Option String
  updates : List LogEntry
  deriving DecidableEq, Repr

/-- The Python string value of each `POStatus` member. -/
def poStatusKey : POStatus → String
  | .REQUEST_FOR_PAYMENT => "REQUEST_FOR_PAYMENT"
  | .REQUEST_FOR_PAYMENT_APPROVAL => "REQUEST_FOR_PAYMENT_APPROVAL"
  | .PURCHASE_ORDER => "PURCHASE_ORDER"
  | .PURCHASE_ORDER_APPROVAL => "PURCHASE_ORDER_APPROVAL"
  | .BILLING => "BILLING"
  | .PO_FILING => "PO_FILING"
  | .ARCHIVED => "ARCHIVED"

def PO_FLOW : List POStatus :=
  [.REQUEST_FOR_PAYMENT, .REQUEST_FOR_PAYMENT_APPROVAL, .PURCHASE_ORDER,
   .PURCHASE_ORDER_APPROVAL, .BILLING, .PO_FILING]

structure POMeta where
  label : String
  forward_roles : List String
  approver_roles : List String
  decliner_roles : List String
  requires_approval : Bool
  on_approve : Option POStatus
  side_effect_generate_po_number : Bool
  gate_billing : Bool
  deriving DecidableEq, Repr

/-- `PO_META`: total over the status enum (every member is a key, so the
`PO_META.get(...) is None` error paths of the source are unreachable). -/
def PO_META : POStatus → POMeta
  | .REQUEST_FOR_PAYMENT =>
    ⟨"Request for Payment", ["AccountingOfficer", "RVT"], [], [], false, none, false, false⟩
  | .REQUEST_FOR_PAYMENT_APPROVAL =>
    ⟨"Request for Payment Approval", [], ["AccountingHead", "TopManagement"], ["RVT"],
      true, some .PURCHASE_ORDER, false, false⟩
  | .PURCHASE_ORDER =>
    ⟨"Purchase Order", ["AccountingOfficer", "RVT"], [], [], false, none, false, false⟩
  | .PURCHASE_ORDER_APPROVAL =>
    ⟨"Purchase Order Approval", [], ["TopManagement"], ["JGG"], true, some .BILLING,
      true, false⟩
  | .BILLING =>
    ⟨"Billing", ["RVT"], [], [], false, none, false, true⟩
  | .PO_FILING =>
    ⟨"PO Filing", ["RVT"], ["AccountingOfficer", "AccountingHead", "TopManagement"],
      ["RVT"], true, none, false, false⟩
  | .ARCHIVED =>
    ⟨"Archived", [], [], [], false, none, false, false⟩

/-- `PurchaseOrder.resolve_actor_role` (static method). -/
def resolve_actor_role (u : User) (simulated_role : Option String) : Option String :=
  if u.is_superuser then
    some (match simulated_role with
          | some s => if s ≠ "" then s else "SUPERUSER"
          | none => "SUPERUSER")
  else
    match simulated_role with
    | some s => if s ≠ "" then some s else get_user_role u
    | none => get_user_role u

/-- `PurchaseOrder.get_current_column`. -/
def po_get_current_column (po : PO) : String :=
  if po.is_archived ∨ po.status = POStatus.ARCHIVED then "ARCHIVED"
  else poStatusKey po.status

def po_prev_status (st : POStatus) : Option POStatus :=
  if st ∈ PO_FLOW then
    let i := idxOf PO_FLOW st
    if i > 0 then PO_FLOW.get? (i - 1) else none
  else none

def po_next_status (st : POStatus) : Option POStatus :=
  if st ∈ PO_FLOW then PO_FLOW.get? (idxOf PO_FLOW st + 1) else none

def poLog (po : PO) (message : String) (user_notes : String) : PO :=
  { po with updates := ⟨message, user_notes⟩ :: po.updates }

/-- `PurchaseOrder.billed_total`: non-cancelled billing amounts. -/
def billed_total (po : PO) : ℚ :=
  (po.billings.filter (fun b => ¬b.is_cancelled)).foldl (fun s b => s + b.amount) 0

/-- Stored `total` as recomputed by `recalc_total`: sum of the non-null
`total_price` values of the particulars. -/
def particularsTotal (po : PO) : ℚ :=
  (po.particulars.filterMap id).foldl (· + ·) 0

/-- `Decimal.quantize(Decimal("0.01"), rounding=ROUND_HALF_UP)`: round to
two decimal places, ties away from zero. -/
def roundHalfUp2 (q : ℚ) : ℚ :=
  if 0 ≤ q then (⌊q * 100 + 1 / 2⌋ : ℚ) / 100
  else -((⌊-q * 100 + 1 / 2⌋ : ℚ) / 100)

/-- `str()` of a two-decimal `Decimal` value (as interpolated into the
billing-gate rejection message), e.g. `"1500.00"`. -/
def moneyStr (q : ℚ) : String :=
  let c : ℤ := ⌊q * 100⌋
  let n : Nat := c.natAbs
  let frac : Nat := n % 100
  let core := toString (n / 100) ++ "." ++
    (if frac < 10 then "0" ++ toString frac else toString frac)
  if c < 0 then "-" ++ core else core

/-- `PurchaseOrder.totals_match_and_paid`:
`(ok, po_total_rounded, billed_rounded, reason)`. -/
def totals_match_and_paid (po : PO) : Bool × ℚ × ℚ × String :=
  let po_total := roundHalfUp2 po.total
  let billed := roundHalfUp2 (billed_total po)
  if po_total ≠ billed then
    (false, po_total, billed, "Totals do not match.")
  else if po.billings.any (fun b => ¬b.is_cancelled ∧ b.status ≠ BillingStatus.PAID) then
    (false, po_total, billed, "Not all billings are PAID.")
  else
    (true, po_total, billed, "")

/-- The billing-gate rejection message built by `submit_to_next`. -/
def billingRejectMsg (reason : String) (po_r billed_r : ℚ) : String :=
  "Cannot proceed to PO Filing. " ++ reason ++ " (PO Total ₱" ++ moneyStr po_r ++
    ", Billed ₱" ++ moneyStr billed_r ++ ")"

/-- `PurchaseOrder.submit_to_next`. -/
def submit_to_next (user : User) (user_notes : String)
    (simulated_role : Option String) (po : PO) : Except Err PO :=
  match resolve_actor_role user simulated_role with
  | none => .error (.permissionDenied "No role.")
  | some actor_role =>
    if po.is_archived ∨ po.status = POStatus.ARCHIVED then
      .error (.validationError "Archived POs cannot be submitted.")
    else if (PO_META po.status).requires_approval ∧
            po.approval_status ≠ POApprovalStatus.APPROVED then
      .error (.validationError "This step must be approved before proceeding.")
    else if (PO_META po.status).forward_roles ≠ [] ∧
            actor_role ∉ (PO_META po.status).forward_roles ∧
            actor_role ≠ "SUPERUSER" then
      .error (.permissionDenied "You cannot submit this step.")
    else if (PO_META po.status).gate_billing ∧ (totals_match_and_paid po).1 = false then
      .error (.validationError
        (billingRejectMsg (totals_match_and_paid po).2.2.2 (totals_match_and_paid po).2.1
          (totals_match_and_paid po).2.2.1))
    else
      match po_next_status po.status with
      | none => .error (.validationError "No next step.")
      | some nxt =>
        .ok (poLog
          { po with status := nxt, approval_status := POApprovalStatus.PENDING }
          ("Submitted forward to " ++ poStatusKey nxt ++ ".") user_notes)

/-- `PurchaseOrder.approve_current_step`.  `fresh_po_number` stands for the
value `PurchaseOrder.get_next_po_number()` would allocate, which the
method assigns when the stage's side effect fires. -/
def po_approve_current_step (user : User) (user_notes : String)
    (simulated_role : Option String) (fresh_po_number : String) (po : PO) :
    Except Err PO :=
  match resolve_actor_role user simulated_role with
  | none => .error (.permissionDenied "No role.")
  | some actor_role =>
    if po.approval_status ≠ POApprovalStatus.PENDING then
      .error (.validationError "Not pending approval.")
    else
      if actor_role ∉ (PO_META po.status).approver_roles ∧ actor_role ≠ "SUPERUSER" then
        .error (.permissionDenied "Not allowed to approve this step.")
      else
        -- side effect (po_number), `on_approve` stage jump, approval flip
        .ok (poLog
          { po with
              po_number :=
                if (PO_META po.status).side_effect_generate_po_number then
                  some fresh_po_number
                else po.po_number
              status :=
                match (PO_META po.status).on_approve with
                | some st => st
                | none => po.status
              approval_status := POApprovalStatus.APPROVED }
          ("Approved in " ++ (PO_META po.status).label ++ ".") user_notes)

/-- `PurchaseOrder.decline_current_step`.  Returns `some` of the new state,
or `none` when the purchase order is deleted (decline at
REQUEST_FOR_PAYMENT_APPROVAL first logs, then `self.delete()` removes the
document and, by `on_delete=CASCADE`, its audit entries). -/
def po_decline_current_step (user : User) (user_notes : String)
    (simulated_role : Option String) (po : PO) : Except Err (Option PO) :=
  match resolve_actor_role user simulated_role with
  | none => .error (.permissionDenied "No role.")
  | some actor_role =>
    if actor_role ∉ (PO_META po.status).decliner_roles then
      .error (.permissionDenied "Not allowed to decline.")
    else if po.status = POStatus.REQUEST_FOR_PAYMENT_APPROVAL then
      .ok none
    else
      match po_prev_status po.status with
      | none =>
        -- unreachable: every status with a non-empty decliner set has a predecessor
        .error (.validationError "No previous step.")
      | some prev =>
        .ok (some (poLog
          { po with status := prev, approval_status := POApprovalStatus.DECLINED }
          ("Declined. Moved back to " ++ poStatusKey prev ++ ".") user_notes))

/-! ## Number generators (`get_next_dr_number`, `get_next_po_number`)

The generators scan the persisted identifiers (modelled as a list of
character lists), take the largest match of the scope in the database's
binary string order (`order_by("-dr_number").first()`), parse its numeric
suffix, and re-format with `%04d` zero-padding.  Strings are embedded as
`List Char` so that the string ordering and Python's `split("-")` are
explicit, inductively defined functions. -/

/-- Binary (code-point) lexicographic strict order: the order a unique
`CharField` is sorted by under `order_by`. -/
def lexLt : List Char → List Char → Bool
  | [], [] => false
  | [], _ :: _ => true
  | _ :: _, [] => false
  | a :: as, b :: bs => if a < b then true else if b < a then false else lexLt as bs

/-- `s.startswith(pat)` (the `dr_number__startswith` filter). -/
def startsWithL : List Char → List Char → Bool
  | [], _ => true
  | _ :: _, [] => false
  | p :: ps, c :: cs => p = c && startsWithL ps cs

/-- Python `s.split("-")`. -/
def splitDash : List Char → List (List Char)
  | [] => [[]]
  | c :: rest =>
    if c = '-' then [] :: splitDash rest
    else
      match splitDash rest with
      | [] => [[c]]
      | p :: ps => (c :: p) :: ps

/-- Python `int(s)` on a piece produced by `split`: all-digit strings
parse, anything else raises `ValueError` (`none`). -/
def parseIntPy (l : List Char) : Option Nat :=
  if l = [] then none
  else if l.all (fun c => c.isDigit) then
    some (l.foldl (fun acc c => acc * 10 + (c.toNat - 48)) 0)
  else none

def digitChar (d : Nat) : Char := Char.ofNat (48 + d)

/-- Decimal digits, fuel-based structural recursion (the fuel argument
only serves termination; `natDigits` supplies enough). -/
def natDigitsAux : Nat → Nat → List Char
  | 0, _ => []
  | fuel + 1, n =>
    if n < 10 then [digitChar n]
    else natDigitsAux fuel (n / 10) ++ [digitChar (n % 10)]

/-- Decimal digits of `n` (Python `str(n)` for a natural number). -/
def natDigits (n : Nat) : List Char := natDigitsAux (n + 1) n

/-- Python `f"{n:04d}"`. -/
def pad4 (n : Nat) : List Char :=
  let s := natDigits n
  List.replicate (4 - s.length) '0' ++ s

/-- One fully formatted identifier in a scope. -/
def mkNum (scope : List Char) (k : Nat) : List Char := scope ++ pad4 k

/-- One step of the max-scan: keep the larger string. -/
def maxStep (acc : Option (List Char)) (s : List Char) : Option (List Char) :=
  match acc with
  | none => some s
  | some m => if lexLt m s then some s else some m

/-- The largest identifier matching the scope under the binary string
order (`filter(startswith).order_by(desc).first()`). -/
def maxMatch (scope : List Char) (store : List (List Char)) : Option (List Char) :=
  (store.filter (fun s => startsWithL scope s)).foldl maxStep none

/-- `DeliveryReceipt.get_next_dr_number` (note the source's scope constant
is the literal `year = 6202`).  The parse of the second dash-piece falls
back to `0` on `IndexError`/`ValueError`. -/
def drScope : List Char := "6202-".toList

def get_next_dr_number (store : List (List Char)) : List Char :=
  let last_seq : Nat :=
    match maxMatch drScope store with
    | none => 0
    | some last =>
      match (splitDash last).get? 1 with
      | none => 0
      | some piece => (parseIntPy piece).getD 0
  mkNum drScope (last_seq + 1)

/-- `PurchaseOrder.get_next_po_number` scope: `f"PO-{year}-"`. -/
def poScope (year : Nat) : List Char := "PO-".toList ++ natDigits year ++ ['-']

/-- `PurchaseOrder.get_next_po_number`: the unguarded
`int(last.po_number.split("-")[-1])` propagates `ValueError` (`Except`). -/
def get_next_po_number (year : Nat) (store : List (List Char)) :
    Except Unit (List Char) :=
  match maxMatch (poScope year) store with
  | none => .ok (mkNum (poScope year) 1)
  | some last =>
    match parseIntPy ((splitDash last).getLastD []) with
    | none => .error ()
    | some k => .ok (mkNum (poScope year) (k + 1))

/-- `N` sequential generator calls, each returned identifier persisted
before the next call: returns the identifiers in call order, plus the
final store. -/
def runDrGen : Nat → List (List Char) → List (List Char) × List (List Char)
  | 0, store => ([], store)
  | n + 1, store =>
    let id := get_next_dr_number store
    let r := runDrGen n (id :: store)
    (id :: r.1, r.2)

def runPoGen (year : Nat) : Nat → List (List Char) → Option (List (List Char))
  | 0, _ => some []
  | n + 1, store =>
    match get_next_po_number year store with
    | .error _ => none
    | .ok id => (runPoGen year n (id :: store)).map (id :: ·)

/-! ## Example actors and documents used by witnesses and counterexamples -/

def userSalesAgent : User := ⟨true, false, ["SalesAgent"]⟩

def userAcctHead : User := ⟨true, false, ["AccountingHead"]⟩

def userLogHead : User := ⟨true, false, ["LogisticsHead"]⟩

def userSalesHead : User := ⟨true, false, ["SalesHead"]⟩

def userNoGroups : User := ⟨true, false, []⟩

/-! # Theorems -/

/-- **C10.** `dr_lifecycle_for` and `get_lifecycle_steps` resolve every
delivery receipt to the same ordered list of stage keys. -/
theorem c10_lifecycle_resolvers_agree :
    ∀ dr : DR, dr_lifecycle_for dr = get_lifecycle_steps dr :=
  fun _ => rfl

/-- **C5.** The lifecycle resolver is a pure deterministic function of
`(delivery_method, payment_method)`; it returns the singleton stock-transfer
stage for D2D_STOCKS, three payment-free stages for SAMPLE, four stages
(no FOR_DELIVERY) for door-to-door cash, the payment pipeline without
FOR_DELIVERY for door-to-door deferred, the pipeline skipping the
countering/collection stages for cash standard, the full pipeline for
deferred standard; and every classification combination resolves to one of
these defined sequences (it is total, so it never raises — the
InvalidClassification clause of the claim is vacuous). -/
theorem c5_lifecycle_resolver_cases :
    (∀ dr1 dr2 : DR, dr1.delivery_method = dr2.delivery_method →
      dr1.payment_method = dr2.payment_method →
      dr_lifecycle_for dr1 = dr_lifecycle_for dr2) ∧
    (∀ dr : DR, dr.delivery_method = DeliveryMethod.D2D_STOCKS →
      dr_lifecycle_for dr = ["D2D_STOCKS"]) ∧
    (∀ dr : DR, dr.delivery_method = DeliveryMethod.SAMPLE →
      dr_lifecycle_for dr = ["NEW_DR", "FOR_DELIVERY", "DELIVERED"]) ∧
    (∀ dr : DR, dr.delivery_method = DeliveryMethod.DOOR_TO_DOOR →
      dr.payment_method = PaymentMethod.CASH →
      dr_lifecycle_for dr = ["NEW_DR", "DELIVERED", "FOR_DEPOSIT", "DEPOSITED"]) ∧
    (∀ dr : DR, dr.delivery_method = DeliveryMethod.DOOR_TO_DOOR →
      dr.payment_method ≠ PaymentMethod.CASH →
      dr_lifecycle_for dr = ["NEW_DR", "DELIVERED", "FOR_COUNTER_CREATION",
        "FOR_COUNTERING", "COUNTERED", "FOR_COLLECTION", "FOR_DEPOSIT", "DEPOSITED"]) ∧
    (∀ dr : DR, dr.delivery_method = DeliveryMethod.DELIVERY →
      dr.payment_method = PaymentMethod.CASH →
      dr_lifecycle_for dr = ["NEW_DR", "FOR_DELIVERY", "DELIVERED", "FOR_DEPOSIT",
        "DEPOSITED"]) ∧
    (∀ dr : DR, dr.delivery_method = DeliveryMethod.DELIVERY →
      dr.payment_method ≠ PaymentMethod.CASH →
      dr_lifecycle_for dr = ["NEW_DR", "FOR_DELIVERY", "DELIVERED",
        "FOR_COUNTER_CREATION", "FOR_COUNTERING", "COUNTERED", "FOR_COLLECTION",
        "FOR_DEPOSIT", "DEPOSITED"]) ∧
    (∀ dr : DR, dr_lifecycle_for dr ∈
      [["D2D_STOCKS"],
       ["NEW_DR", "FOR_DELIVERY", "DELIVERED"],
       ["NEW_DR", "DELIVERED", "FOR_DEPOSIT", "DEPOSITED"],
       ["NEW_DR", "DELIVERED", "FOR_COUNTER_CREATION", "FOR_COUNTERING", "COUNTERED",
        "FOR_COLLECTION", "FOR_DEPOSIT", "DEPOSITED"],
       ["NEW_DR", "FOR_DELIVERY", "DELIVERED", "FOR_DEPOSIT", "DEPOSITED"],
       ["NEW_DR", "FOR_DELIVERY", "DELIVERED", "FOR_COUNTER_CREATION", "FOR_COUNTERING",
        "COUNTERED", "FOR_COLLECTION", "FOR_DEPOSIT", "DEPOSITED"]]) := by
  refine ⟨?_, ?_, ?_, ?_, ?_, ?_, ?_, ?_⟩
  · intro dr1 dr2 h1 h2
    unfold dr_lifecycle_for
    rw [h1, h2]
  all_goals
    intro dr
    rcases dr with ⟨ds, ps, dm, pm, ap, a1, a2, b1, b2, b3, b4, u⟩
    cases dm <;> cases pm <;> simp [dr_lifecycle_for]

def c5drStock : DR :=
  ⟨.NEW_DR, .NA, .D2D_STOCKS, .CASH, .APPROVED, false, false, false, false, false,
    false, []⟩

theorem c5_lifecycle_resolver_cases_witness :
    c5drStock.delivery_method = DeliveryMethod.D2D_STOCKS ∧
    dr_lifecycle_for c5drStock = ["D2D_STOCKS"] :=
  ⟨rfl, c5_lifecycle_resolver_cases.2.1 c5drStock rfl⟩

/-- A cancelled and archived delivery receipt (state used to refute C2). -/
def c2drCancelled : DR :=
  ⟨.NEW_DR, .NA, .DELIVERY, .DAYS_30, .PENDING, true, true, false, false, false,
    false, []⟩

/-- **C2 counterexample.** `DeliveryReceipt.move_to_column` performs no
cancelled/archived check: a cancelled, archived DR is moved forward
successfully (state changed, audit entry written) rather than rejected. -/
theorem c2_counterexample_cancelled_dr_moves :
    c2drCancelled.is_cancelled = true ∧ c2drCancelled.is_archived = true ∧
    move_to_column userSalesAgent "FOR_DELIVERY" "" none c2drCancelled =
      .ok { c2drCancelled with
              delivery_status := DeliveryStatus.FOR_DELIVERY,
              updates := [⟨"Moved from NEW_DR to FOR_DELIVERY as SalesAgent.", ""⟩] } := by
  refine ⟨rfl, rfl, ?_⟩
  rfl

/-- The operation was rejected (raised) — no new state is produced. -/
def isError {α : Type} : Except Err α → Prop
  | .error _ => True
  | .ok _ => False

/-- **C2 (amended).** `PurchaseOrder.submit_to_next` rejects a document
whose archived flag (or ARCHIVED status) is set; `DeliveryReceipt.move_to_column`
checks neither flag, and `submit_to_next` does not check `is_cancelled`
directly (cancellation only blocks submission through the archived flag it
sets alongside). -/
theorem c2_submit_rejects_archived :
    ∀ (user : User) (user_notes : String) (simulated_role : Option String) (po : PO),
      po.is_archived = true ∨ po.status = POStatus.ARCHIVED →
      isError (submit_to_next user user_notes simulated_role po) := by
  intro user user_notes simulated_role po h
  unfold submit_to_next
  cases resolve_actor_role user simulated_role with
  | none => exact trivial
  | some r =>
    have hc : (po.is_archived = true ∨ po.status = POStatus.ARCHIVED) = True := by
      simp [h]
    simp only [hc, if_true]
    exact trivial

def c2poArchived : PO :=
  ⟨.BILLING, .PENDING, true, true, 0, [], [], none, []⟩

theorem c2_submit_rejects_archived_witness :
    c2poArchived.is_archived = true ∧
    isError (submit_to_next userNoGroups "" (some "RVT") c2poArchived) :=
  ⟨rfl, c2_submit_rejects_archived userNoGroups "" (some "RVT") c2poArchived (Or.inl rfl)⟩

/-- A pending DR sitting in NEW_DR. -/
def c8drNew : DR :=
  ⟨.NEW_DR, .NA, .DELIVERY, .DAYS_30, .PENDING, false, false, false, false, false,
    false, []⟩

/-- **C8 counterexample.** A no-op move request is *not* error-free for
every actor: an actor with no resolvable role requesting a move to the
document's current stage receives PermissionDenied instead of the claimed
error-free no-op. -/
theorem c8_counterexample_roleless_noop_errors :
    get_current_column c8drNew = "NEW_DR" ∧
    move_to_column userNoGroups "NEW_DR" "" none c8drNew =
      .error (.permissionDenied "Your account does not have an assigned role.") := by
  constructor
  · rfl
  · rfl

/-- **C8 (amended).** Provided the actor's role resolves, the document is
not a D2D-stocks document, and the (current) target stage is in the
resolved lifecycle, a move request targeting the current stage returns
without error, with no field changed and no audit entry written. -/
theorem c8_noop_move :
    ∀ (user : User) (user_notes : String) (simulated_role : Option String) (dr : DR)
      (r : String),
      dr_actor_role user simulated_role = some r →
      dr.delivery_method ≠ DeliveryMethod.D2D_STOCKS →
      get_current_column dr ∈ dr_lifecycle_for dr →
      move_to_column user (get_current_column dr) user_notes simulated_role dr = .ok dr := by
  intro user user_notes simulated_role dr r hres hdm hmem
  unfold move_to_column
  rw [hres]
  simp [hdm, hmem]

theorem c8_noop_move_witness :
    dr_actor_role userSalesAgent none = some "SalesAgent" ∧
    c8drNew.delivery_method ≠ DeliveryMethod.D2D_STOCKS ∧
    get_current_column c8drNew ∈ dr_lifecycle_for c8drNew ∧
    move_to_column userSalesAgent (get_current_column c8drNew) "" none c8drNew =
      .ok c8drNew :=
  ⟨by decide, by decide, by decide,
    c8_noop_move userSalesAgent "" none c8drNew "SalesAgent" (by decide) (by decide)
      (by decide)⟩

/-- A purchase order in PO Filing whose approval axis is already APPROVED. -/
def c3poFiling : PO :=
  ⟨.PO_FILING, .APPROVED, false, false, 0, [], [], none, []⟩

/-- **C3 counterexample.** `PurchaseOrder.decline_current_step` performs no
`approval_status == PENDING` check: a PO whose approval status is APPROVED
is declined successfully instead of raising InvalidState. -/
theorem c3_counterexample_po_decline_skips_pending :
    c3poFiling.approval_status = POApprovalStatus.APPROVED ∧
    po_decline_current_step userNoGroups "" (some "RVT") c3poFiling =
      .ok (some { c3poFiling with
                    status := POStatus.BILLING,
                    approval_status := POApprovalStatus.DECLINED,
                    updates := [⟨"Declined. Moved back to BILLING.", ""⟩] }) :=
  ⟨rfl, rfl⟩

/-- **C3 (amended).** The DR approve/decline operations and PO approve
require `approval_status == PENDING` (ValidationError otherwise) and check
the actor's resolved role against the current stage's approver/decliner
set (PermissionDenied otherwise); `PurchaseOrder.decline_current_step`
checks only the decliner role and performs no PENDING check. -/
theorem c3_approval_gate_preconditions :
    (∀ (u : User) (n : String) (sim : Option String) (dr : DR) (r : String),
      dr_actor_role u sim = some r →
      dr.approval_status ≠ ApprovalStatus.PENDING →
      approve_current_step u n sim dr =
        .error (.validationError "This DR is not pending approval.")) ∧
    (∀ (u : User) (n : String) (sim : Option String) (dr : DR) (r : String),
      dr_actor_role u sim = some r →
      dr.approval_status = ApprovalStatus.PENDING →
      r ∉ (drCurrMeta dr).approver_roles →
      approve_current_step u n sim dr =
        .error (.permissionDenied
          ("Role " ++ r ++ " is not allowed to approve in " ++ get_current_column dr ++ "."))) ∧
    (∀ (u : User) (n : String) (sim : Option String) (dr : DR) (r : String),
      dr_actor_role u sim = some r →
      dr.approval_status ≠ ApprovalStatus.PENDING →
      decline_current_step u n sim dr =
        .error (.validationError "This DR is not pending approval.")) ∧
    (∀ (u : User) (n : String) (sim : Option String) (dr : DR) (r : String),
      dr_actor_role u sim = some r →
      dr.approval_status = ApprovalStatus.PENDING →
      r ∉ (drCurrMeta dr).decliner_roles →
      decline_current_step u n sim dr =
        .error (.permissionDenied
          ("Role " ++ r ++ " is not allowed to decline in " ++ get_current_column dr ++ "."))) ∧
    (∀ (u : User) (n : String) (sim : Option String) (fresh : String) (po : PO)
      (r : String),
      resolve_actor_role u sim = some r →
      po.approval_status ≠ POApprovalStatus.PENDING →
      po_approve_current_step u n sim fresh po =
        .error (.validationError "Not pending approval.")) ∧
    (∀ (u : User) (n : String) (sim : Option String) (fresh : String) (po : PO)
      (r : String),
      resolve_actor_role u sim = some r →
      po.approval_status = POApprovalStatus.PENDING →
      r ∉ (PO_META po.status).approver_roles → r ≠ "SUPERUSER" →
      po_approve_current_step u n sim fresh po =
        .error (.permissionDenied "Not allowed to approve this step.")) ∧
    (∀ (u : User) (n : String) (sim : Option String) (po : PO) (r : String),
      resolve_actor_role u sim = some r →
      r ∉ (PO_META po.status).decliner_roles →
      po_decline_current_step u n sim po =
        .error (.permissionDenied "Not allowed to decline.")) := by
  refine ⟨?_, ?_, ?_, ?_, ?_, ?_, ?_⟩
  · intro u n sim dr r hres hnp
    unfold approve_current_step
    rw [hres]
    simp [hnp]
  · intro u n sim dr r hres hp hrole
    unfold approve_current_step
    rw [hres]
    simp [hp, hrole]
  · intro u n sim dr r hres hnp
    unfold decline_current_step
    rw [hres]
    simp [hnp]
  · intro u n sim dr r hres hp hrole
    unfold decline_current_step
    rw [hres]
    simp [hp, hrole]
  · intro u n sim fresh po r hres hnp
    unfold po_approve_current_step
    rw [hres]
    simp [hnp]
  · intro u n sim fresh po r hres hp hrole hsup
    unfold po_approve_current_step
    rw [hres]
    simp [hp, hrole, hsup]
  · intro u n sim po r hres hrole
    unfold po_decline_current_step
    rw [hres]
    simp [hrole]

/-- A delivery receipt in NEW_DR whose approval axis is already APPROVED. -/
def c3drApproved : DR :=
  ⟨.NEW_DR, .NA, .DELIVERY, .DAYS_30, .APPROVED, false, false, false, false, false,
    false, []⟩

theorem c3_approval_gate_preconditions_witness :
    dr_actor_role userSalesHead none = some "SalesHead" ∧
    c3drApproved.approval_status ≠ ApprovalStatus.PENDING ∧
    approve_current_step userSalesHead "" none c3drApproved =
      .error (.validationError "This DR is not pending approval.") :=
  ⟨by decide, by decide,
    c3_approval_gate_preconditions.1 userSalesHead "" none c3drApproved "SalesHead"
      (by decide) (by decide)⟩

/-- A declined purchase order at the PURCHASE_ORDER stage (exactly the
state produced by a decline at PURCHASE_ORDER_APPROVAL). -/
def c4poDeclined : PO :=
  ⟨.PURCHASE_ORDER, .DECLINED, false, false, 0, [], [], none, []⟩

/-- **C4 counterexample.** A DECLINED purchase order at a stage that does
not require approval submits forward successfully: the forward move is not
rejected while `approval_status` is DECLINED (the submission itself resets
it to PENDING). -/
theorem c4_counterexample_declined_po_submits :
    c4poDeclined.approval_status = POApprovalStatus.DECLINED ∧
    idxOf PO_FLOW POStatus.PURCHASE_ORDER_APPROVAL =
      idxOf PO_FLOW POStatus.PURCHASE_ORDER + 1 ∧
    submit_to_next userNoGroups "" (some "RVT") c4poDeclined =
      .ok { c4poDeclined with
              status := POStatus.PURCHASE_ORDER_APPROVAL,
              approval_status := POApprovalStatus.PENDING,
              updates := [⟨"Submitted forward to PURCHASE_ORDER_APPROVAL.", ""⟩] } :=
  ⟨rfl, rfl, rfl⟩

/-- **C4 (amended).** A DECLINED delivery receipt rejects every forward
`move_to_column` request; a DECLINED purchase order rejects `submit_to_next`
from the stages that require approval (where submission demands APPROVED),
while at the other stages the submission is allowed and itself resets the
approval axis to PENDING. -/
theorem c4_declined_blocks_forward :
    (∀ (u : User) (n : String) (sim : Option String) (dr : DR) (target : String),
      dr.approval_status = ApprovalStatus.DECLINED →
      target ∈ dr_lifecycle_for dr →
      drTargetIdx dr target > drCurrentIdx dr →
      isError (move_to_column u target n sim dr)) ∧
    (∀ (u : User) (n : String) (sim : Option String) (po : PO),
      (PO_META po.status).requires_approval = true →
      po.approval_status = POApprovalStatus.DECLINED →
      isError (submit_to_next u n sim po)) := by
  constructor
  · intro u n sim dr target hd hmem hfwd
    unfold move_to_column
    cases dr_actor_role u sim with
    | none => exact trivial
    | some r =>
      dsimp only
      by_cases h1 : dr.delivery_method = DeliveryMethod.D2D_STOCKS
      · rw [if_pos h1]; exact trivial
      · rw [if_neg h1]
        rw [if_neg (show ¬ target ∉ dr_lifecycle_for dr from fun h => h hmem)]
        have h3 : ¬ get_current_column dr = target := by
          intro hcur
          unfold drTargetIdx drCurrentIdx at hfwd
          rw [hcur, if_pos hmem] at hfwd
          exact absurd hfwd (lt_irrefl _)
        rw [if_neg h3]
        by_cases h4 : dr.delivery_method = DeliveryMethod.DOOR_TO_DOOR ∧
            target = "FOR_DELIVERY"
        · rw [if_pos h4]; exact trivial
        · rw [if_neg h4]
          rw [if_pos ⟨hd, hfwd⟩]
          exact trivial
  · intro u n sim po hreq hd
    unfold submit_to_next
    cases resolve_actor_role u sim with
    | none => exact trivial
    | some r =>
      dsimp only
      by_cases h1 : po.is_archived = true ∨ po.status = POStatus.ARCHIVED
      · rw [if_pos h1]; exact trivial
      · rw [if_neg h1]
        rw [if_pos ⟨hreq, by rw [hd]; decide⟩]
        exact trivial

/-- A declined delivery receipt in NEW_DR. -/
def c4drDeclined : DR :=
  ⟨.NEW_DR, .NA, .DELIVERY, .DAYS_30, .DECLINED, false, false, false, false, false,
    false, []⟩

theorem c4_declined_blocks_forward_witness :
    c4drDeclined.approval_status = ApprovalStatus.DECLINED ∧
    "FOR_DELIVERY" ∈ dr_lifecycle_for c4drDeclined ∧
    isError (move_to_column userSalesAgent "FOR_DELIVERY" "" none c4drDeclined) :=
  ⟨by decide, by decide,
    c4_declined_blocks_forward.1 userSalesAgent "" none c4drDeclined "FOR_DELIVERY"
      (by decide) (by decide) (by decide)⟩

/-- **C6.** The billing gate returns true iff the particulars total equals
the non-cancelled billings total (both rounded half-up to two decimal
places) and every non-cancelled billing is PAID; when it returns false,
the forward move from BILLING (by an authorised actor) is rejected with a
message carrying both computed totals. -/
theorem c6_billing_gate :
    ∀ po : PO, po.total = particularsTotal po →
      (((totals_match_and_paid po).1 = true ↔
        (roundHalfUp2 (particularsTotal po) = roundHalfUp2 (billed_total po) ∧
         ∀ b ∈ po.billings, b.is_cancelled = false → b.status = BillingStatus.PAID)) ∧
       (∀ (u : User) (n : String) (sim : Option String) (r : String),
         resolve_actor_role u sim = some r →
         po.is_archived = false → po.status = POStatus.BILLING →
         r = "RVT" ∨ r = "SUPERUSER" →
         (totals_match_and_paid po).1 = false →
         submit_to_next u n sim po =
           .error (.validationError
             (billingRejectMsg (totals_match_and_paid po).2.2.2
               (totals_match_and_paid po).2.1 (totals_match_and_paid po).2.2.1)))) := by
  intro po htotal
  constructor
  · rw [← htotal]
    unfold totals_match_and_paid
    by_cases h1 : roundHalfUp2 po.total ≠ roundHalfUp2 (billed_total po)
    · rw [if_pos h1]
      exact ⟨(fun hc => nomatch hc), fun hc => absurd hc.1 h1⟩
    · rw [if_neg h1]
      push_neg at h1
      by_cases h2 : po.billings.any
          (fun b => ¬b.is_cancelled ∧ b.status ≠ BillingStatus.PAID) = true
      · rw [if_pos h2]
        refine ⟨(fun hc => nomatch hc), fun hc => ?_⟩
        rw [List.any_eq_true] at h2
        obtain ⟨b, hb, hcond⟩ := h2
        simp only [decide_eq_true_eq] at hcond
        exact absurd (hc.2 b hb (by simpa using hcond.1)) hcond.2
      · rw [if_neg h2]
        refine ⟨fun _ => ⟨h1, ?_⟩, fun _ => rfl⟩
        intro b hb hnc
        by_contra hp
        apply h2
        rw [List.any_eq_true]
        exact ⟨b, hb, by simp [hnc, hp]⟩
  · intro u n sim r hres harch hstat hrole hfail
    unfold submit_to_next
    rw [hres]
    dsimp only
    rw [if_neg (show ¬ (po.is_archived = true ∨ po.status = POStatus.ARCHIVED) by
      rw [harch, hstat]; decide)]
    rw [hstat]
    rw [if_neg (show ¬ ((PO_META POStatus.BILLING).requires_approval = true ∧
        po.approval_status ≠ POApprovalStatus.APPROVED) from
      fun hc => absurd hc.1 (by decide))]
    rw [if_neg (show ¬ ((PO_META POStatus.BILLING).forward_roles ≠ [] ∧
        r ∉ (PO_META POStatus.BILLING).forward_roles ∧ r ≠ "SUPERUSER") by
      rcases hrole with h | h <;> subst h <;> decide)]
    rw [if_pos (show (PO_META POStatus.BILLING).gate_billing = true ∧
        (totals_match_and_paid po).1 = false from ⟨by decide, hfail⟩)]

/-- Scenario E of the spec: line-item total 1500.00, one PAID, non-cancelled
billing of 1500.00. -/
def c6poScenarioE : PO :=
  ⟨.BILLING, .PENDING, false, false, 1500, [some 1500],
    [⟨1500, .PAID, false⟩], none, []⟩

theorem c6_billing_gate_witness :
    c6poScenarioE.total = particularsTotal c6poScenarioE ∧
    (totals_match_and_paid c6poScenarioE).1 = true :=
  ⟨by simp [c6poScenarioE, particularsTotal],
    (c6_billing_gate c6poScenarioE (by simp [c6poScenarioE, particularsTotal])).1.mpr
      ⟨by norm_num [particularsTotal, billed_total, c6poScenarioE, List.filterMap,
        List.foldl, List.filter], by decide⟩⟩

/-! ### Audit-trail lemmas (claim C7) -/

theorem poLog_updates : ∀ (po : PO) (m n : String),
    (poLog po m n).updates = ⟨m, n⟩ :: po.updates := fun _ _ _ => rfl

theorem drLog_updates : ∀ (dr : DR) (m n : String),
    (drLog dr m n).updates = ⟨m, n⟩ :: dr.updates := fun _ _ _ => rfl

theorem drModelSave_updates : ∀ dr : DR, (drModelSave dr).updates = dr.updates := by
  intro dr
  unfold drModelSave
  split_ifs <;> rfl

theorem auditApproveStep :
    ∀ (u : User) (n : String) (sim : Option String) (dr dr' : DR),
    approve_current_step u n sim dr = .ok dr' →
    ∃ e, dr'.updates = e :: dr.updates := by
  intro u n sim dr dr' h
  unfold approve_current_step at h
  cases hres : dr_actor_role u sim with
  | none => rw [hres] at h; dsimp only at h; exact Except.noConfusion h
  | some r =>
    rw [hres] at h
    dsimp only at h
    by_cases c1 : dr.approval_status ≠ ApprovalStatus.PENDING
    · rw [if_pos c1] at h; exact Except.noConfusion h
    rw [if_neg c1] at h
    by_cases c2 : r ∉ (drCurrMeta dr).approver_roles
    · rw [if_pos c2] at h; exact Except.noConfusion h
    rw [if_neg c2] at h
    rw [← Except.ok.inj h, drLog_updates, drModelSave_updates]
    exact ⟨_, rfl⟩

theorem auditDeclineStep :
    ∀ (u : User) (n : String) (sim : Option String) (dr dr' : DR),
    decline_current_step u n sim dr = .ok dr' →
    (∃ e, dr'.updates = e :: dr.updates) ∨
    (dr.delivery_method = DeliveryMethod.DOOR_TO_DOOR ∧
     dr.delivery_status = DeliveryStatus.DELIVERED ∧ dr'.updates = dr.updates) := by
  intro u n sim dr dr' h
  unfold decline_current_step at h
  cases hres : dr_actor_role u sim with
  | none => rw [hres] at h; dsimp only at h; exact Except.noConfusion h
  | some r =>
    rw [hres] at h
    dsimp only at h
    by_cases c1 : dr.approval_status ≠ ApprovalStatus.PENDING
    · rw [if_pos c1] at h; exact Except.noConfusion h
    rw [if_neg c1] at h
    by_cases c2 : r ∉ (drCurrMeta dr).decliner_roles
    · rw [if_pos c2] at h; exact Except.noConfusion h
    rw [if_neg c2] at h
    by_cases c3 : dr.delivery_method = DeliveryMethod.DOOR_TO_DOOR ∧
        dr.delivery_status = DeliveryStatus.DELIVERED
    · rw [if_pos c3] at h
      right
      exact ⟨c3.1, c3.2, by rw [← Except.ok.inj h, drModelSave_updates]⟩
    rw [if_neg c3] at h
    by_cases c4 : get_current_column dr = "NEW_DR"
    · rw [if_pos c4] at h
      left
      rw [← Except.ok.inj h, drLog_updates, drModelSave_updates]
      exact ⟨_, rfl⟩
    rw [if_neg c4] at h
    by_cases c5 : get_current_column dr ∉ dr_lifecycle_for dr
    · rw [if_pos c5] at h; exact Except.noConfusion h
    rw [if_neg c5] at h
    by_cases c6 : dr.payment_method = PaymentMethod.CASH ∧
        get_current_column dr = "FOR_DEPOSIT"
    · rw [if_pos c6] at h
      left
      rw [← Except.ok.inj h, drLog_updates, drModelSave_updates]
      exact ⟨_, rfl⟩
    rw [if_neg c6] at h
    by_cases c7 : drDeclineIdx dr = 0
    · rw [if_pos c7] at h; exact Except.noConfusion h
    rw [if_neg c7] at h
    cases hmeta : DR_STEP_META (drPrevColumn dr) with
    | none => rw [hmeta] at h; exact Except.noConfusion h
    | some pmeta =>
      rw [hmeta] at h
      dsimp only at h
      left
      rw [← Except.ok.inj h, drLog_updates, drModelSave_updates]
      exact ⟨_, rfl⟩

theorem auditSubmitToNext :
    ∀ (u : User) (n : String) (sim : Option String) (po po' : PO),
    submit_to_next u n sim po = .ok po' →
    ∃ e, po'.updates = e :: po.updates := by
  intro u n sim po po' h
  unfold submit_to_next at h
  cases hres : resolve_actor_role u sim with
  | none => rw [hres] at h; dsimp only at h; exact Except.noConfusion h
  | some r =>
    rw [hres] at h
    dsimp only at h
    by_cases c1 : po.is_archived = true ∨ po.status = POStatus.ARCHIVED
    · rw [if_pos c1] at h; exact Except.noConfusion h
    rw [if_neg c1] at h
    by_cases c2 : (PO_META po.status).requires_approval = true ∧
        po.approval_status ≠ POApprovalStatus.APPROVED
    · rw [if_pos c2] at h; exact Except.noConfusion h
    rw [if_neg c2] at h
    by_cases c3 : (PO_META po.status).forward_roles ≠ [] ∧
        r ∉ (PO_META po.status).forward_roles ∧ r ≠ "SUPERUSER"
    · rw [if_pos c3] at h; exact Except.noConfusion h
    rw [if_neg c3] at h
    by_cases c4 : (PO_META po.status).gate_billing = true ∧
        (totals_match_and_paid po).1 = false
    · rw [if_pos c4] at h; exact Except.noConfusion h
    rw [if_neg c4] at h
    cases hnxt : po_next_status po.status with
    | none => rw [hnxt] at h; exact Except.noConfusion h
    | some nxt =>
      rw [hnxt] at h
      dsimp only at h
      rw [← Except.ok.inj h, poLog_updates]
      exact ⟨_, rfl⟩

theorem auditPoApproveStep :
    ∀ (u : User) (n : String) (sim : Option String) (fresh : String) (po po' : PO),
    po_approve_current_step u n sim fresh po = .ok po' →
    ∃ e, po'.updates = e :: po.updates := by
  intro u n sim fresh po po' h
  unfold po_approve_current_step at h
  cases hres : resolve_actor_role u sim with
  | none => rw [hres] at h; dsimp only at h; exact Except.noConfusion h
  | some r =>
    rw [hres] at h
    dsimp only at h
    by_cases c1 : po.approval_status ≠ POApprovalStatus.PENDING
    · rw [if_pos c1] at h; exact Except.noConfusion h
    rw [if_neg c1] at h
    by_cases c2 : r ∉ (PO_META po.status).approver_roles ∧ r ≠ "SUPERUSER"
    · rw [if_pos c2] at h; exact Except.noConfusion h
    rw [if_neg c2] at h
    rw [← Except.ok.inj h, poLog_updates]
    exact ⟨_, rfl⟩

theorem auditPoDeclineStep :
    ∀ (u : User) (n : String) (sim : Option String) (po : PO) (po' : PO),
    po_decline_current_step u n sim po = .ok (some po') →
    ∃ e, po'.updates = e :: po.updates := by
  intro u n sim po po' h
  unfold po_decline_current_step at h
  cases hres : resolve_actor_role u sim with
  | none => rw [hres] at h; dsimp only at h; exact Except.noConfusion h
  | some r =>
    rw [hres] at h
    dsimp only at h
    by_cases c1 : r ∉ (PO_META po.status).decliner_roles
    · rw [if_pos c1] at h; exact Except.noConfusion h
    rw [if_neg c1] at h
    by_cases c2 : po.status = POStatus.REQUEST_FOR_PAYMENT_APPROVAL
    · rw [if_pos c2] at h
      exact Option.noConfusion (Except.ok.inj h)
    rw [if_neg c2] at h
    cases hprev : po_prev_status po.status with
    | none => rw [hprev] at h; exact Except.noConfusion h
    | some prev =>
      rw [hprev] at h
      dsimp only at h
      rw [← Option.some.inj (Except.ok.inj h), poLog_updates]
      exact ⟨_, rfl⟩

theorem auditMoveToColumn : ∀ (u : User) (t n : String) (sim : Option String) (dr dr' : DR),
    move_to_column u t n sim dr = .ok dr' →
    dr' = dr ∨ ∃ e, dr'.updates = e :: dr.updates := by
  intro u t n sim dr dr' h
  unfold move_to_column at h
  cases hres : dr_actor_role u sim with
  | none =>
    rw [hres] at h
    dsimp only at h
    exact Except.noConfusion h
  | some r =>
    rw [hres] at h
    dsimp only at h
    by_cases c1 : dr.delivery_method = DeliveryMethod.D2D_STOCKS
    · rw [if_pos c1] at h; exact Except.noConfusion h
    rw [if_neg c1] at h
    by_cases c2 : t ∉ dr_lifecycle_for dr
    · rw [if_pos c2] at h; exact Except.noConfusion h
    rw [if_neg c2] at h
    by_cases c3 : get_current_column dr = t
    · rw [if_pos c3] at h
      exact Or.inl (Except.ok.inj h).symm
    rw [if_neg c3] at h
    by_cases c4 : dr.delivery_method = DeliveryMethod.DOOR_TO_DOOR ∧ t = "FOR_DELIVERY"
    · rw [if_pos c4] at h; exact Except.noConfusion h
    rw [if_neg c4] at h
    by_cases c5 : dr.approval_status = ApprovalStatus.DECLINED ∧
        drTargetIdx dr t > drCurrentIdx dr
    · rw [if_pos c5] at h; exact Except.noConfusion h
    rw [if_neg c5] at h
    by_cases c6 : r ∉ drAllowedMoveRoles dr t
    · rw [if_pos c6] at h; exact Except.noConfusion h
    rw [if_neg c6] at h
    by_cases c7 : dr.payment_method = PaymentMethod.CASH ∧ t ∉ CASH_ALLOWED
    · rw [if_pos c7] at h; exact Except.noConfusion h
    rw [if_neg c7] at h
    by_cases c8 : drTargetIdx dr t > drCurrentIdx dr ∧
        dr.delivery_method = DeliveryMethod.DOOR_TO_DOOR ∧
        get_current_column dr = "NEW_DR" ∧ t = "DELIVERED"
    · rw [if_pos c8] at h
      right
      rw [← Except.ok.inj h, drLog_updates, drModelSave_updates]
      exact ⟨_, rfl⟩
    rw [if_neg c8] at h
    by_cases c9 : drTargetIdx dr t > drCurrentIdx dr ∧ some t ≠ drExpectedNext dr
    · rw [if_pos c9] at h; exact Except.noConfusion h
    rw [if_neg c9] at h
    by_cases c10 : drTargetIdx dr t > drCurrentIdx dr ∧ drMissing dr ≠ []
    · rw [if_pos c10] at h
      by_cases d1 : get_current_column dr = "FOR_DELIVERY" ∧ t = "DELIVERED" ∧
          "date_of_delivery" ∈ drMissing dr
      · rw [if_pos d1] at h; exact Except.noConfusion h
      rw [if_neg d1] at h
      by_cases d2 : get_current_column dr = "FOR_DEPOSIT" ∧ t = "DEPOSITED" ∧
          "payment_details" ∈ drMissing dr
      · rw [if_pos d2] at h; exact Except.noConfusion h
      rw [if_neg d2] at h
      by_cases d3 : get_current_column dr = "FOR_COUNTER_CREATION" ∧
          t = "FOR_COUNTERING" ∧ "payment_due" ∈ drMissing dr
      · rw [if_pos d3] at h; exact Except.noConfusion h
      rw [if_neg d3] at h
      exact Except.noConfusion h
    rw [if_neg c10] at h
    by_cases c11 : drTargetIdx dr t < drCurrentIdx dr ∧
        dr.delivery_method = DeliveryMethod.DOOR_TO_DOOR ∧
        get_current_column dr = "DELIVERED" ∧ t = "NEW_DR"
    · rw [if_pos c11] at h
      right
      rw [← Except.ok.inj h, drLog_updates, drModelSave_updates]
      exact ⟨_, rfl⟩
    rw [if_neg c11] at h
    by_cases c12 : drTargetIdx dr t < drCurrentIdx dr ∧
        dr.payment_method = PaymentMethod.CASH ∧
        get_current_column dr = "DEPOSITED" ∧ t = "FOR_DEPOSIT" ∧ ¬ u.is_superuser
    · rw [if_pos c12] at h; exact Except.noConfusion h
    rw [if_neg c12] at h
    by_cases c13 : drTargetIdx dr t < drCurrentIdx dr ∧
        dr.payment_method = PaymentMethod.CASH ∧
        ¬ (get_current_column dr = "DEPOSITED" ∧ t = "FOR_DEPOSIT") ∧
        t ∉ cashAllowedBack (get_current_column dr)
    · rw [if_pos c13] at h; exact Except.noConfusion h
    rw [if_neg c13] at h
    by_cases c14 : drTargetIdx dr t < drCurrentIdx dr ∧
        dr.payment_method ≠ PaymentMethod.CASH ∧ drCurrentIdx dr = 0
    · rw [if_pos c14] at h; exact Except.noConfusion h
    rw [if_neg c14] at h
    by_cases c15 : drTargetIdx dr t < drCurrentIdx dr ∧
        dr.payment_method ≠ PaymentMethod.CASH ∧
        t ≠ (dr_lifecycle_for dr).getD (drCurrentIdx dr - 1) ""
    · rw [if_pos c15] at h; exact Except.noConfusion h
    rw [if_neg c15] at h
    by_cases c16 : drTargetIdx dr t < drCurrentIdx dr ∧
        get_current_column dr = "FOR_COUNTER_CREATION" ∧ t = "DELIVERED"
    · rw [if_pos c16] at h
      right
      rw [← Except.ok.inj h, drLog_updates, drModelSave_updates]
      exact ⟨_, rfl⟩
    rw [if_neg c16] at h
    cases hmeta : DR_STEP_META t with
    | none => rw [hmeta] at h; exact Except.noConfusion h
    | some tmeta =>
      rw [hmeta] at h
      dsimp only at h
      right
      rw [← Except.ok.inj h, drLog_updates, drModelSave_updates]
      exact ⟨_, rfl⟩

/-- A door-to-door terms DR at FOR_COUNTER_CREATION whose delivery status
is still DELIVERED (the state the workflow itself produces there). -/
def c7drD2DTerms : DR :=
  ⟨.DELIVERED, .FOR_COUNTER_CREATION, .DOOR_TO_DOOR, .DAYS_30, .PENDING, false, false,
    false, false, false, false, []⟩

/-- **C7 counterexample.** The door-to-door delivered-decline shortcut is a
successful state-mutating decline that appends *no* audit entry: the
updates list is unchanged while the stage fields and approval status are
rewritten. -/
theorem c7_counterexample_d2d_decline_writes_no_audit :
    decline_current_step userAcctHead "" none c7drD2DTerms =
      .ok { c7drD2DTerms with
              delivery_status := DeliveryStatus.NEW_DR,
              payment_status := PaymentStatus.NA,
              approval_status := ApprovalStatus.APPROVED } ∧
    ({ c7drD2DTerms with
         delivery_status := DeliveryStatus.NEW_DR,
         payment_status := PaymentStatus.NA,
         approval_status := ApprovalStatus.APPROVED } : DR).updates =
      c7drD2DTerms.updates ∧
    get_current_column c7drD2DTerms ≠ "NEW_DR" :=
  ⟨rfl, rfl, by decide⟩

/-- **C7 (amended).** Every successful state-mutating call of the six
engine operations appends exactly one entry to the document audit log and
leaves the prior entries intact (the new list is an entry consed on the
old one), with two exceptions: the idempotent no-op move appends nothing
and changes nothing, and the door-to-door delivered-decline shortcut
mutates state while appending nothing.  (PO decline at
REQUEST_FOR_PAYMENT_APPROVAL deletes the document, and with it its log,
via the FK cascade — the `.ok none` case excluded here.) -/
theorem c7_audit_append_per_mutation :
    (∀ (u : User) (t n : String) (sim : Option String) (dr dr' : DR),
      move_to_column u t n sim dr = .ok dr' →
      dr' = dr ∨ ∃ e, dr'.updates = e :: dr.updates) ∧
    (∀ (u : User) (n : String) (sim : Option String) (dr dr' : DR),
      approve_current_step u n sim dr = .ok dr' →
      ∃ e, dr'.updates = e :: dr.updates) ∧
    (∀ (u : User) (n : String) (sim : Option String) (dr dr' : DR),
      decline_current_step u n sim dr = .ok dr' →
      (∃ e, dr'.updates = e :: dr.updates) ∨
      (dr.delivery_method = DeliveryMethod.DOOR_TO_DOOR ∧
       dr.delivery_status = DeliveryStatus.DELIVERED ∧ dr'.updates = dr.updates)) ∧
    (∀ (u : User) (n : String) (sim : Option String) (po po' : PO),
      submit_to_next u n sim po = .ok po' →
      ∃ e, po'.updates = e :: po.updates) ∧
    (∀ (u : User) (n : String) (sim : Option String) (fresh : String) (po po' : PO),
      po_approve_current_step u n sim fresh po = .ok po' →
      ∃ e, po'.updates = e :: po.updates) ∧
    (∀ (u : User) (n : String) (sim : Option String) (po : PO) (po' : PO),
      po_decline_current_step u n sim po = .ok (some po') →
      ∃ e, po'.updates = e :: po.updates) :=
  ⟨auditMoveToColumn, auditApproveStep, auditDeclineStep, auditSubmitToNext,
    auditPoApproveStep, auditPoDeclineStep⟩

theorem c7_audit_append_per_mutation_witness :
    approve_current_step userSalesHead "" none c8drNew =
      .ok { c8drNew with
              approval_status := ApprovalStatus.APPROVED,
              updates := [⟨"Approved in column NEW_DR as SalesHead.", ""⟩] } ∧
    ∃ e, ({ c8drNew with
              approval_status := ApprovalStatus.APPROVED,
              updates := [⟨"Approved in column NEW_DR as SalesHead.", ""⟩] } : DR).updates =
      e :: c8drNew.updates :=
  ⟨rfl, c7_audit_append_per_mutation.2.1 userSalesHead "" none c8drNew _ rfl⟩

/-! ### Column/lifecycle lemmas (claim C1) -/

theorem currentColumn_ne_stocks : ∀ dr : DR, get_current_column dr ≠ "D2D_STOCKS" := by
  intro dr
  rcases dr with ⟨ds, ps, dm, pm, ap, a1, a2, b1, b2, b3, b4, upd⟩
  cases ds <;> cases ps <;> simp [get_current_column]

theorem currentColumn_new_dr : ∀ dr : DR,
    get_current_column dr = "NEW_DR" → dr.delivery_status = DeliveryStatus.NEW_DR := by
  intro dr
  rcases dr with ⟨ds, ps, dm, pm, ap, a1, a2, b1, b2, b3, b4, upd⟩
  cases ds <;> cases ps <;> simp [get_current_column]

theorem lifecycle_head_new_dr : ∀ dr : DR,
    dr.delivery_method ≠ DeliveryMethod.D2D_STOCKS →
    (dr_lifecycle_for dr).headD "" = "NEW_DR" := by
  intro dr h
  rcases dr with ⟨ds, ps, dm, pm, ap, a1, a2, b1, b2, b3, b4, upd⟩
  cases dm <;> cases pm <;> simp_all [dr_lifecycle_for]

theorem mem_stocks_lifecycle : ∀ dr : DR,
    get_current_column dr ∈ dr_lifecycle_for dr →
    dr.delivery_method ≠ DeliveryMethod.D2D_STOCKS := by
  intro dr hmem hstocks
  have hlc : dr_lifecycle_for dr = ["D2D_STOCKS"] := by
    simp [dr_lifecycle_for, hstocks]
  rw [hlc] at hmem
  simp at hmem
  exact currentColumn_ne_stocks dr hmem

theorem drModelSave_keeps : ∀ dr : DR,
    dr.delivery_method ≠ DeliveryMethod.D2D_STOCKS →
    (drModelSave dr).approval_status = dr.approval_status ∧
    (drModelSave dr).delivery_status = dr.delivery_status := by
  intro dr h
  unfold drModelSave
  split_ifs <;> simp_all

theorem drLog_column : ∀ (x : DR) (m n : String),
    get_current_column (drLog x m n) = get_current_column x := fun _ _ _ => rfl

theorem drLog_approval : ∀ (x : DR) (m n : String),
    (drLog x m n).approval_status = x.approval_status := fun _ _ _ => rfl

theorem column_after_delivered_reset : ∀ (dr : DR) (ap : ApprovalStatus),
    get_current_column (drModelSave
      { dr with delivery_status := DeliveryStatus.DELIVERED
                payment_status := PaymentStatus.NA
                approval_status := ap }) = "DELIVERED" := by
  intro dr ap
  unfold drModelSave
  split_ifs <;> simp [get_current_column]


set_option maxHeartbeats 2000000 in
theorem declineStageAnalysis : ∀ dr : DR,
    get_current_column dr ∈ dr_lifecycle_for dr →
    ¬ (dr.delivery_method = DeliveryMethod.DOOR_TO_DOOR ∧
       dr.delivery_status = DeliveryStatus.DELIVERED) →
    get_current_column dr ≠ "NEW_DR" →
    ((dr.payment_method = PaymentMethod.CASH ∧ get_current_column dr = "FOR_DEPOSIT" →
       drPrevColumn dr = "DELIVERED") ∧
     (drDeclineIdx dr ≠ 0 →
       get_current_column (drModelSave
         { dr with
             delivery_status :=
               ((DR_STEP_META (drPrevColumn dr)).getD emptyMeta).status_map_ds.getD
                 dr.delivery_status
             payment_status :=
               ((DR_STEP_META (drPrevColumn dr)).getD emptyMeta).status_map_ps.getD
                 dr.payment_status
             approval_status := ApprovalStatus.DECLINED }) = drPrevColumn dr)) := by
  intro dr
  rcases dr with ⟨ds, ps, dm, pm, ap, a1, a2, b1, b2, b3, b4, upd⟩
  cases dm <;> cases pm <;> cases ds <;> cases ps <;>
    simp [get_current_column, dr_lifecycle_for, drPrevColumn, drDeclineIdx, idxOf,
      DR_STEP_META, emptyMeta, drModelSave]


theorem po_prev_is_flow_pred : ∀ (st prev : POStatus),
    po_prev_status st = some prev →
    prev = PO_FLOW.getD (idxOf PO_FLOW st - 1) POStatus.ARCHIVED := by
  decide

/-- The declared named exception of the decline gate: the door-to-door
delivered-decline shortcut (models.py comment "preserve your Door-to-Door
delivered decline shortcut"), which lands on NEW_DR with approval APPROVED
instead of rolling back one stage. -/
def drDeclineNamedException (dr : DR) : Prop :=
  dr.delivery_method = DeliveryMethod.DOOR_TO_DOOR ∧
  dr.delivery_status = DeliveryStatus.DELIVERED

/-- **C1.** Every successful decline from a stage that is not the first of
the resolved lifecycle lands on the immediate predecessor stage (with
approval DECLINED) unless the declared named exception applies (the
door-to-door delivered-decline shortcut for DRs; for POs, the
REQUEST_FOR_PAYMENT_APPROVAL decline deletes the document and is excluded
by the `some` result); a successful decline from the first stage leaves
the stage unchanged and sets approval DECLINED (for POs a first-stage
decline never succeeds: the stage has no decliner roles). -/
theorem c1_decline_rollback :
    (∀ (u : User) (n : String) (sim : Option String) (dr dr' : DR),
      decline_current_step u n sim dr = .ok dr' →
      get_current_column dr ∈ dr_lifecycle_for dr →
      ((get_current_column dr = (dr_lifecycle_for dr).headD "" →
          get_current_column dr' = get_current_column dr ∧
          dr'.approval_status = ApprovalStatus.DECLINED) ∧
       (get_current_column dr ≠ (dr_lifecycle_for dr).headD "" →
          ¬ drDeclineNamedException dr →
          get_current_column dr' = drPrevColumn dr ∧
          dr'.approval_status = ApprovalStatus.DECLINED))) ∧
    (∀ (u : User) (n : String) (sim : Option String) (po po' : PO),
      po_decline_current_step u n sim po = .ok (some po') →
      po.status ≠ POStatus.REQUEST_FOR_PAYMENT ∧
      po'.status = PO_FLOW.getD (idxOf PO_FLOW po.status - 1) POStatus.ARCHIVED ∧
      po'.approval_status = POApprovalStatus.DECLINED) := by
  constructor
  · intro u n sim dr dr' h hmem
    have hdm := mem_stocks_lifecycle dr hmem
    have hhead := lifecycle_head_new_dr dr hdm
    unfold decline_current_step at h
    cases hres : dr_actor_role u sim with
    | none => rw [hres] at h; dsimp only at h; exact Except.noConfusion h
    | some r =>
      rw [hres] at h
      dsimp only at h
      by_cases c1 : dr.approval_status ≠ ApprovalStatus.PENDING
      · rw [if_pos c1] at h; exact Except.noConfusion h
      rw [if_neg c1] at h
      by_cases c2 : r ∉ (drCurrMeta dr).decliner_roles
      · rw [if_pos c2] at h; exact Except.noConfusion h
      rw [if_neg c2] at h
      by_cases c3 : dr.delivery_method = DeliveryMethod.DOOR_TO_DOOR ∧
          dr.delivery_status = DeliveryStatus.DELIVERED
      · rw [if_pos c3] at h
        constructor
        · intro hfst
          exfalso
          rw [hhead] at hfst
          have hds := currentColumn_new_dr dr hfst
          rw [c3.2] at hds
          exact absurd hds (by decide)
        · intro _ hexc
          exact absurd c3 hexc
      rw [if_neg c3] at h
      by_cases c4 : get_current_column dr = "NEW_DR"
      · rw [if_pos c4] at h
        have hX := Except.ok.inj h
        have hds := currentColumn_new_dr dr c4
        constructor
        · intro _
          constructor
          · have hsd : (drModelSave
                { dr with approval_status := ApprovalStatus.DECLINED }).delivery_status =
                DeliveryStatus.NEW_DR :=
              (drModelSave_keeps
                { dr with approval_status := ApprovalStatus.DECLINED } hdm).2.trans hds
            have hcol : get_current_column (drModelSave
                { dr with approval_status := ApprovalStatus.DECLINED }) = "NEW_DR" := by
              unfold get_current_column
              rw [if_pos hsd]
            rw [← hX, drLog_column, hcol, c4]
          · rw [← hX, drLog_approval]
            exact (drModelSave_keeps
              { dr with approval_status := ApprovalStatus.DECLINED } hdm).1
        · intro hneq _
          exact absurd (c4.trans hhead.symm) hneq
      rw [if_neg c4] at h
      by_cases c5 : get_current_column dr ∉ dr_lifecycle_for dr
      · rw [if_pos c5] at h; exact Except.noConfusion h
      rw [if_neg c5] at h
      by_cases c6 : dr.payment_method = PaymentMethod.CASH ∧
          get_current_column dr = "FOR_DEPOSIT"
      · rw [if_pos c6] at h
        have hX := Except.ok.inj h
        constructor
        · intro hfst
          exfalso
          rw [hhead] at hfst
          exact absurd (c6.2.symm.trans hfst) (by decide)
        · intro hneq hexc
          constructor
          · rw [← hX, drLog_column, column_after_delivered_reset]
            exact ((declineStageAnalysis dr hmem hexc c4).1 c6).symm
          · rw [← hX, drLog_approval]
            exact (drModelSave_keeps
              { dr with delivery_status := DeliveryStatus.DELIVERED
                        payment_status := PaymentStatus.NA
                        approval_status := ApprovalStatus.DECLINED } hdm).1
      rw [if_neg c6] at h
      by_cases c7 : drDeclineIdx dr = 0
      · rw [if_pos c7] at h; exact Except.noConfusion h
      rw [if_neg c7] at h
      cases hmeta : DR_STEP_META (drPrevColumn dr) with
      | none => rw [hmeta] at h; exact Except.noConfusion h
      | some pmeta =>
        rw [hmeta] at h
        dsimp only at h
        have hX := Except.ok.inj h
        have hpm : pmeta = (DR_STEP_META (drPrevColumn dr)).getD emptyMeta := by
          rw [hmeta]
          rfl
        constructor
        · intro hfst
          exact absurd (hfst.trans hhead) c4
        · intro hneq hexc
          constructor
          · rw [← hX, drLog_column, hpm]
            exact (declineStageAnalysis dr hmem hexc c4).2 c7
          · rw [← hX, drLog_approval]
            exact (drModelSave_keeps
              { dr with
                  delivery_status := pmeta.status_map_ds.getD dr.delivery_status
                  payment_status := pmeta.status_map_ps.getD dr.payment_status
                  approval_status := ApprovalStatus.DECLINED } hdm).1
  · intro u n sim po po' h
    unfold po_decline_current_step at h
    cases hres : resolve_actor_role u sim with
    | none => rw [hres] at h; dsimp only at h; exact Except.noConfusion h
    | some r =>
      rw [hres] at h
      dsimp only at h
      by_cases c1 : r ∉ (PO_META po.status).decliner_roles
      · rw [if_pos c1] at h; exact Except.noConfusion h
      rw [if_neg c1] at h
      by_cases c2 : po.status = POStatus.REQUEST_FOR_PAYMENT_APPROVAL
      · rw [if_pos c2] at h
        exact Option.noConfusion (Except.ok.inj h)
      rw [if_neg c2] at h
      cases hprev : po_prev_status po.status with
      | none => rw [hprev] at h; exact Except.noConfusion h
      | some prev =>
        rw [hprev] at h
        dsimp only at h
        have hX := Option.some.inj (Except.ok.inj h)
        refine ⟨?_, ?_, ?_⟩
        · intro hst
          rw [hst] at c1
          simp [PO_META] at c1
        · rw [← hX]
          exact po_prev_is_flow_pred po.status prev hprev
        · rw [← hX]
          rfl


/-- A standard deferred-payment DR sitting in COUNTERED, pending approval. -/
def c1drCountered : DR :=
  ⟨.DELIVERED, .COUNTERED, .DELIVERY, .DAYS_30, .PENDING, false, false, false, false,
    false, false, []⟩

def c1drCounteredDeclined : DR :=
  { c1drCountered with
      payment_status := PaymentStatus.FOR_COUNTERING
      approval_status := ApprovalStatus.DECLINED
      updates := [⟨"Declined in COUNTERED as AccountingHead. Moved back to FOR_COUNTERING for clarification.", ""⟩] }

theorem c1_decline_rollback_witness :
    decline_current_step userAcctHead "" none c1drCountered =
      .ok c1drCounteredDeclined ∧
    get_current_column c1drCounteredDeclined = drPrevColumn c1drCountered ∧
    c1drCounteredDeclined.approval_status = ApprovalStatus.DECLINED :=
  ⟨rfl,
    ((c1_decline_rollback.1 userAcctHead "" none c1drCountered c1drCounteredDeclined
          rfl (by decide)).2 (by decide)
        (fun hc => absurd hc.1 (by decide))).1,
    ((c1_decline_rollback.1 userAcctHead "" none c1drCountered c1drCounteredDeclined
          rfl (by decide)).2 (by decide)
        (fun hc => absurd hc.1 (by decide))).2⟩

/-! ### Number-generator lemmas (claim C9) -/

theorem digitChar_lt : ∀ d : Nat, d < 10 → ∀ e : Nat, e < 10 →
    ((digitChar d < digitChar e) ↔ d < e) := by decide

theorem digitChar_isDigit : ∀ d : Nat, d < 10 → (digitChar d).isDigit = true := by decide

theorem digitChar_toNat : ∀ d : Nat, d < 10 → (digitChar d).toNat = 48 + d := by decide

theorem digitChar_ne_dash : ∀ d : Nat, d < 10 → digitChar d ≠ '-' := by decide

theorem natDigitsAux_fuel : ∀ (f1 : Nat), ∀ (f2 n : Nat), n < f1 → n < f2 →
    natDigitsAux f1 n = natDigitsAux f2 n := by
  intro f1
  induction f1 with
  | zero => intro f2 n h1 _; omega
  | succ f ih =>
    intro f2 n h1 h2
    cases f2 with
    | zero => omega
    | succ g =>
      show (if n < 10 then [digitChar n]
          else natDigitsAux f (n / 10) ++ [digitChar (n % 10)]) =
        (if n < 10 then [digitChar n]
          else natDigitsAux g (n / 10) ++ [digitChar (n % 10)])
      by_cases hn : n < 10
      · rw [if_pos hn, if_pos hn]
      · rw [if_neg hn, if_neg hn]
        rw [ih g (n / 10) (by omega) (by omega)]

theorem natDigits_small : ∀ n : Nat, n < 10 → natDigits n = [digitChar n] := by
  intro n h
  show (if n < 10 then [digitChar n]
      else natDigitsAux n (n / 10) ++ [digitChar (n % 10)]) = [digitChar n]
  rw [if_pos h]

theorem natDigits_step : ∀ n : Nat, ¬ n < 10 →
    natDigits n = natDigits (n / 10) ++ [digitChar (n % 10)] := by
  intro n h
  show (if n < 10 then [digitChar n]
      else natDigitsAux n (n / 10) ++ [digitChar (n % 10)]) = _
  rw [if_neg h]
  rw [natDigitsAux_fuel n (n / 10 + 1) (n / 10) (by omega) (by omega)]
  rfl

theorem pad4_eq : ∀ k : Nat, k ≤ 9999 →
    pad4 k = [digitChar (k / 1000), digitChar (k / 100 % 10),
              digitChar (k / 10 % 10), digitChar (k % 10)] := by
  intro k hk
  by_cases h1 : k < 10
  · have e : natDigits k = [digitChar k] := natDigits_small k h1
    have d0 : k / 1000 = 0 := by omega
    have d1 : k / 100 % 10 = 0 := by omega
    have d2 : k / 10 % 10 = 0 := by omega
    have d3 : k % 10 = k := by omega
    simp [pad4, e, d0, d1, d2, d3, List.replicate]
    rfl
  by_cases h2 : k < 100
  · have e0 : natDigits (k / 10) = [digitChar (k / 10)] := natDigits_small _ (by omega)
    have e : natDigits k = [digitChar (k / 10), digitChar (k % 10)] := by
      rw [natDigits_step k (by omega), e0]
      rfl
    have d0 : k / 1000 = 0 := by omega
    have d1 : k / 100 % 10 = 0 := by omega
    have d2 : k / 10 % 10 = k / 10 := by omega
    simp [pad4, e, d0, d1, d2, List.replicate]
    rfl
  by_cases h3 : k < 1000
  · have e0 : natDigits (k / 100) = [digitChar (k / 100)] := natDigits_small _ (by omega)
    have e1 : natDigits (k / 10) = [digitChar (k / 100), digitChar (k / 10 % 10)] := by
      rw [natDigits_step (k / 10) (by omega)]
      rw [show k / 10 / 10 = k / 100 from by omega, e0]
      rfl
    have e : natDigits k =
        [digitChar (k / 100), digitChar (k / 10 % 10), digitChar (k % 10)] := by
      rw [natDigits_step k (by omega), e1]
      rfl
    have d0 : k / 1000 = 0 := by omega
    have d1 : k / 100 % 10 = k / 100 := by omega
    simp [pad4, e, d0, d1, List.replicate]
    rfl
  · have e0 : natDigits (k / 1000) = [digitChar (k / 1000)] := natDigits_small _ (by omega)
    have e1 : natDigits (k / 100) = [digitChar (k / 1000), digitChar (k / 100 % 10)] := by
      rw [natDigits_step (k / 100) (by omega)]
      rw [show k / 100 / 10 = k / 1000 from by omega, e0]
      rfl
    have e2 : natDigits (k / 10) =
        [digitChar (k / 1000), digitChar (k / 100 % 10), digitChar (k / 10 % 10)] := by
      rw [natDigits_step (k / 10) (by omega)]
      rw [show k / 10 / 10 = k / 100 from by omega, e1]
      rfl
    have e : natDigits k = [digitChar (k / 1000), digitChar (k / 100 % 10),
        digitChar (k / 10 % 10), digitChar (k % 10)] := by
      rw [natDigits_step k (by omega), e2]
      rfl
    simp [pad4, e]

theorem parseIntPy_pad4 : ∀ k : Nat, k ≤ 9999 → parseIntPy (pad4 k) = some k := by
  intro k hk
  rw [pad4_eq k hk]
  unfold parseIntPy
  rw [if_neg (by simp)]
  rw [if_pos]
  · congr 1
    simp only [List.foldl]
    rw [digitChar_toNat _ (by omega), digitChar_toNat _ (by omega),
        digitChar_toNat _ (by omega), digitChar_toNat _ (by omega)]
    omega
  · simp only [List.all_cons, List.all_nil]
    rw [digitChar_isDigit _ (by omega), digitChar_isDigit _ (by omega),
        digitChar_isDigit _ (by omega), digitChar_isDigit _ (by omega)]
    rfl

theorem char_lt_irrefl : ∀ c : Char, ¬ c < c := fun c h => by
  simp [Char.lt_def] at h

theorem lexLt_irrefl : ∀ l : List Char, lexLt l l = false := by
  intro l
  induction l with
  | nil => rfl
  | cons c cs ih =>
    show (if c < c then true else if c < c then false else lexLt cs cs) = false
    rw [if_neg (char_lt_irrefl c), if_neg (char_lt_irrefl c), ih]

theorem lexLt_append : ∀ (p x y : List Char), lexLt (p ++ x) (p ++ y) = lexLt x y := by
  intro p
  induction p with
  | nil => intro x y; rfl
  | cons c cs ih =>
    intro x y
    show (if c < c then true else if c < c then false else lexLt (cs ++ x) (cs ++ y)) =
      lexLt x y
    rw [if_neg (char_lt_irrefl c), if_neg (char_lt_irrefl c), ih]

theorem lexLt_pad4 : ∀ a b : Nat, a ≤ 9999 → b ≤ 9999 →
    (lexLt (pad4 a) (pad4 b) = true ↔ a < b) := by
  intro a b ha hb
  rw [pad4_eq a ha, pad4_eq b hb]
  show (if digitChar (a / 1000) < digitChar (b / 1000) then true
    else if digitChar (b / 1000) < digitChar (a / 1000) then false
    else if digitChar (a / 100 % 10) < digitChar (b / 100 % 10) then true
    else if digitChar (b / 100 % 10) < digitChar (a / 100 % 10) then false
    else if digitChar (a / 10 % 10) < digitChar (b / 10 % 10) then true
    else if digitChar (b / 10 % 10) < digitChar (a / 10 % 10) then false
    else if digitChar (a % 10) < digitChar (b % 10) then true
    else if digitChar (b % 10) < digitChar (a % 10) then false
    else false) = true ↔ a < b
  by_cases h1 : digitChar (a / 1000) < digitChar (b / 1000)
  · rw [if_pos h1]
    have := (digitChar_lt _ (by omega) _ (by omega)).mp h1
    exact ⟨fun _ => by omega, fun _ => rfl⟩
  rw [if_neg h1]
  by_cases h2 : digitChar (b / 1000) < digitChar (a / 1000)
  · rw [if_pos h2]
    have := (digitChar_lt _ (by omega) _ (by omega)).mp h2
    exact ⟨(fun hc => nomatch hc), fun hc => absurd hc (by omega)⟩
  rw [if_neg h2]
  have e1 : a / 1000 = b / 1000 := by
    have t1 : ¬ a / 1000 < b / 1000 := fun hc =>
      h1 ((digitChar_lt _ (by omega) _ (by omega)).mpr hc)
    have t2 : ¬ b / 1000 < a / 1000 := fun hc =>
      h2 ((digitChar_lt _ (by omega) _ (by omega)).mpr hc)
    omega
  by_cases h3 : digitChar (a / 100 % 10) < digitChar (b / 100 % 10)
  · rw [if_pos h3]
    have := (digitChar_lt _ (by omega) _ (by omega)).mp h3
    exact ⟨fun _ => by omega, fun _ => rfl⟩
  rw [if_neg h3]
  by_cases h4 : digitChar (b / 100 % 10) < digitChar (a / 100 % 10)
  · rw [if_pos h4]
    have := (digitChar_lt _ (by omega) _ (by omega)).mp h4
    exact ⟨(fun hc => nomatch hc), fun hc => absurd hc (by omega)⟩
  rw [if_neg h4]
  have e2 : a / 100 % 10 = b / 100 % 10 := by
    have t1 : ¬ a / 100 % 10 < b / 100 % 10 := fun hc =>
      h3 ((digitChar_lt _ (by omega) _ (by omega)).mpr hc)
    have t2 : ¬ b / 100 % 10 < a / 100 % 10 := fun hc =>
      h4 ((digitChar_lt _ (by omega) _ (by omega)).mpr hc)
    omega
  by_cases h5 : digitChar (a / 10 % 10) < digitChar (b / 10 % 10)
  · rw [if_pos h5]
    have := (digitChar_lt _ (by omega) _ (by omega)).mp h5
    exact ⟨fun _ => by omega, fun _ => rfl⟩
  rw [if_neg h5]
  by_cases h6 : digitChar (b / 10 % 10) < digitChar (a / 10 % 10)
  · rw [if_pos h6]
    have := (digitChar_lt _ (by omega) _ (by omega)).mp h6
    exact ⟨(fun hc => nomatch hc), fun hc => absurd hc (by omega)⟩
  rw [if_neg h6]
  have e3 : a / 10 % 10 = b / 10 % 10 := by
    have t1 : ¬ a / 10 % 10 < b / 10 % 10 := fun hc =>
      h5 ((digitChar_lt _ (by omega) _ (by omega)).mpr hc)
    have t2 : ¬ b / 10 % 10 < a / 10 % 10 := fun hc =>
      h6 ((digitChar_lt _ (by omega) _ (by omega)).mpr hc)
    omega
  by_cases h7 : digitChar (a % 10) < digitChar (b % 10)
  · rw [if_pos h7]
    have := (digitChar_lt _ (by omega) _ (by omega)).mp h7
    exact ⟨fun _ => by omega, fun _ => rfl⟩
  rw [if_neg h7]
  by_cases h8 : digitChar (b % 10) < digitChar (a % 10)
  · rw [if_pos h8]
    have := (digitChar_lt _ (by omega) _ (by omega)).mp h8
    exact ⟨(fun hc => nomatch hc), fun hc => absurd hc (by omega)⟩
  rw [if_neg h8]
  have e4 : a % 10 = b % 10 := by
    have t1 : ¬ a % 10 < b % 10 := fun hc =>
      h7 ((digitChar_lt _ (by omega) _ (by omega)).mpr hc)
    have t2 : ¬ b % 10 < a % 10 := fun hc =>
      h8 ((digitChar_lt _ (by omega) _ (by omega)).mpr hc)
    omega
  exact ⟨(fun hc => nomatch hc), fun hc => absurd hc (by omega)⟩

theorem lexLt_mkNum : ∀ (scope : List Char) (a b : Nat), a ≤ 9999 → b ≤ 9999 →
    (lexLt (mkNum scope a) (mkNum scope b) = true ↔ a < b) := by
  intro scope a b ha hb
  unfold mkNum
  rw [lexLt_append]
  exact lexLt_pad4 a b ha hb

theorem mkNum_inj : ∀ (scope : List Char) (a b : Nat), a ≤ 9999 → b ≤ 9999 →
    mkNum scope a = mkNum scope b → a = b := by
  intro scope a b ha hb h
  by_contra hne
  rcases Nat.lt_or_ge a b with hlt | hge
  · have ht := (lexLt_mkNum scope a b ha hb).mpr hlt
    rw [h, lexLt_irrefl] at ht
    exact Bool.noConfusion ht
  · have hlt : b < a := by omega
    have ht := (lexLt_mkNum scope b a hb ha).mpr hlt
    rw [h, lexLt_irrefl] at ht
    exact Bool.noConfusion ht

theorem startsWithL_append : ∀ (p rest : List Char), startsWithL p (p ++ rest) = true := by
  intro p
  induction p with
  | nil => intro rest; rfl
  | cons c cs ih =>
    intro rest
    show (c = c && startsWithL cs (cs ++ rest)) = true
    rw [ih]
    simp

theorem splitDash_ne_nil : ∀ l : List Char, splitDash l ≠ [] := by
  intro l
  induction l with
  | nil => simp [splitDash]
  | cons c rest ih =>
    unfold splitDash
    split
    · simp
    · split
      · simp
      · simp

theorem splitDash_no_dash : ∀ l : List Char, (∀ c ∈ l, c ≠ '-') → splitDash l = [l] := by
  intro l
  induction l with
  | nil => intro _; rfl
  | cons c rest ih =>
    intro h
    unfold splitDash
    rw [if_neg (h c (List.mem_cons_self c rest))]
    rw [ih (fun x hx => h x (List.mem_cons_of_mem c hx))]

theorem pad4_no_dash : ∀ k : Nat, k ≤ 9999 → ∀ c ∈ pad4 k, c ≠ '-' := by
  intro k hk c hc
  rw [pad4_eq k hk] at hc
  simp only [List.mem_cons, List.not_mem_nil, or_false] at hc
  rcases hc with h | h | h | h <;>
    (subst h; exact digitChar_ne_dash _ (by omega))

theorem pad4_ne_nil : ∀ k : Nat, k ≤ 9999 → pad4 k ≠ [] := by
  intro k hk
  rw [pad4_eq k hk]
  simp

theorem splitDash_dr : ∀ k : Nat, k ≤ 9999 →
    splitDash (mkNum drScope k) = [['6', '2', '0', '2'], pad4 k] := by
  intro k hk
  have h5 : splitDash (pad4 k) = [pad4 k] := splitDash_no_dash _ (pad4_no_dash k hk)
  show splitDash ('6' :: '2' :: '0' :: '2' :: '-' :: pad4 k) =
    [['6', '2', '0', '2'], pad4 k]
  simp [splitDash, h5]

theorem getLastD_default : ∀ (L : List (List Char)) (a b : List Char), L ≠ [] →
    L.getLastD a = L.getLastD b := by
  intro L a b h
  cases L with
  | nil => exact absurd rfl h
  | cons x l => rw [List.getLastD_cons, List.getLastD_cons]

theorem splitDash_len2 : ∀ l : List Char, '-' ∈ l → 2 ≤ (splitDash l).length := by
  intro l
  induction l with
  | nil => intro h; exact absurd h (List.not_mem_nil _)
  | cons c rest ih =>
    intro h
    unfold splitDash
    by_cases hc : c = '-'
    · rw [if_pos hc]
      have := splitDash_ne_nil rest
      simp only [List.length_cons]
      have : 1 ≤ (splitDash rest).length := by
        cases hsr : splitDash rest with
        | nil => exact absurd hsr (splitDash_ne_nil rest)
        | cons p ps => simp
      omega
    · rw [if_neg hc]
      have hmem : '-' ∈ rest := by
        rcases List.mem_cons.mp h with h1 | h1
        · exact absurd h1.symm hc
        · exact h1
      have := ih hmem
      cases hsr : splitDash rest with
      | nil => exact absurd hsr (splitDash_ne_nil rest)
      | cons p ps =>
        rw [hsr] at this
        simp only [List.length_cons] at this ⊢
        omega

theorem splitDash_append_dash : ∀ (xs ys : List Char),
    (∀ c ∈ ys, c ≠ '-') → ys ≠ [] →
    (splitDash (xs ++ '-' :: ys)).getLastD [] = ys := by
  intro xs
  induction xs with
  | nil =>
    intro ys hnd hne
    show (splitDash ('-' :: ys)).getLastD [] = ys
    unfold splitDash
    rw [if_pos rfl]
    rw [splitDash_no_dash ys hnd]
    rfl
  | cons c xs ih =>
    intro ys hnd hne
    show (splitDash (c :: (xs ++ '-' :: ys))).getLastD [] = ys
    unfold splitDash
    by_cases hc : c = '-'
    · rw [if_pos hc]
      rw [List.getLastD_cons]
      rw [getLastD_default _ _ [] (splitDash_ne_nil _)]
      exact ih ys hnd hne
    · rw [if_neg hc]
      cases hsr : splitDash (xs ++ '-' :: ys) with
      | nil => exact absurd hsr (splitDash_ne_nil _)
      | cons p ps =>
        have hps : ps ≠ [] := by
          have h2 := splitDash_len2 (xs ++ '-' :: ys) (by simp)
          rw [hsr] at h2
          simp only [List.length_cons] at h2
          intro hnil
          rw [hnil] at h2
          simp at h2
        rw [List.getLastD_cons]
        rw [getLastD_default ps (c :: p) p hps]
        have := ih ys hnd hne
        rw [hsr, List.getLastD_cons] at this
        exact this

theorem splitDash_last_pad4 : ∀ (pre : List Char) (k : Nat), k ≤ 9999 →
    (splitDash ((pre ++ ['-']) ++ pad4 k)).getLastD [] = pad4 k := by
  intro pre k hk
  rw [List.append_assoc]
  exact splitDash_append_dash pre (pad4 k) (pad4_no_dash k hk) (pad4_ne_nil k hk)

/-- Wellformed store: every identifier matching the scope is a zero-padded
four-digit sequence in that scope. -/
def WfStore (scope : List Char) (store : List (List Char)) : Prop :=
  ∀ s ∈ store, startsWithL scope s = true → ∃ k, k ≤ 9999 ∧ s = mkNum scope k

/-- `M` bounds the allocated sequence numbers of the scope in the store
(and is attained, unless zero). -/
def MaxIs (scope : List Char) (store : List (List Char)) (M : Nat) : Prop :=
  WfStore scope store ∧ M ≤ 9999 ∧
  (∀ j, j ≤ 9999 → mkNum scope j ∈ store → j ≤ M) ∧
  (M = 0 ∨ mkNum scope M ∈ store)

theorem foldl_maxStep_wf : ∀ (scope : List Char) (l : List (List Char)) (K : Nat),
    K ≤ 9999 →
    (∀ s ∈ l, ∃ k, k ≤ 9999 ∧ s = mkNum scope k) →
    ∃ M, M ≤ 9999 ∧ l.foldl maxStep (some (mkNum scope K)) = some (mkNum scope M) ∧
      K ≤ M ∧ (∀ j, j ≤ 9999 → mkNum scope j ∈ l → j ≤ M) ∧
      (M = K ∨ mkNum scope M ∈ l) := by
  intro scope l
  induction l with
  | nil =>
    intro K hK _
    exact ⟨K, hK, rfl, le_refl K,
      fun j _ hmem => absurd hmem (List.not_mem_nil _), Or.inl rfl⟩
  | cons s l ih =>
    intro K hK h
    obtain ⟨k, hk, rfl⟩ := h s (List.mem_cons_self s l)
    have hrest : ∀ x ∈ l, ∃ j, j ≤ 9999 ∧ x = mkNum scope j :=
      fun x hx => h x (List.mem_cons_of_mem _ hx)
    show ∃ M, _ ∧ List.foldl maxStep (maxStep (some (mkNum scope K)) (mkNum scope k)) l =
      some (mkNum scope M) ∧ _
    by_cases hlt : K < k
    · have hstep : maxStep (some (mkNum scope K)) (mkNum scope k) = some (mkNum scope k) := by
        show (if lexLt (mkNum scope K) (mkNum scope k) = true then some (mkNum scope k)
          else some (mkNum scope K)) = some (mkNum scope k)
        rw [if_pos ((lexLt_mkNum scope K k hK hk).mpr hlt)]
      rw [hstep]
      obtain ⟨M, hM, heq, hkM, hbound, hlast⟩ := ih k hk hrest
      refine ⟨M, hM, heq, by omega, ?_, ?_⟩
      · intro j hj hmem
        rcases List.mem_cons.mp hmem with h1 | h1
        · have := mkNum_inj scope j k hj hk h1
          omega
        · exact hbound j hj h1
      · rcases hlast with h1 | h1
        · subst h1
          exact Or.inr (List.mem_cons_self _ _)
        · exact Or.inr (List.mem_cons_of_mem _ h1)
    · have hfalse : lexLt (mkNum scope K) (mkNum scope k) = false := by
        cases hv : lexLt (mkNum scope K) (mkNum scope k)
        · rfl
        · exact absurd ((lexLt_mkNum scope K k hK hk).mp hv) hlt
      have hstep : maxStep (some (mkNum scope K)) (mkNum scope k) = some (mkNum scope K) := by
        show (if lexLt (mkNum scope K) (mkNum scope k) = true then some (mkNum scope k)
          else some (mkNum scope K)) = some (mkNum scope K)
        rw [hfalse]
        rfl
      rw [hstep]
      obtain ⟨M, hM, heq, hkM, hbound, hlast⟩ := ih K hK hrest
      refine ⟨M, hM, heq, hkM, ?_, ?_⟩
      · intro j hj hmem
        rcases List.mem_cons.mp hmem with h1 | h1
        · have := mkNum_inj scope j k hj hk h1
          omega
        · exact hbound j hj h1
      · rcases hlast with h1 | h1
        · exact Or.inl h1
        · exact Or.inr (List.mem_cons_of_mem _ h1)

theorem maxMatch_spec : ∀ (scope : List Char) (store : List (List Char)),
    WfStore scope store →
    (maxMatch scope store = none ∧ ∀ j, j ≤ 9999 → mkNum scope j ∉ store) ∨
    (∃ M, M ≤ 9999 ∧ maxMatch scope store = some (mkNum scope M) ∧
      mkNum scope M ∈ store ∧ ∀ j, j ≤ 9999 → mkNum scope j ∈ store → j ≤ M) := by
  intro scope store hwf
  have hfwf : ∀ s ∈ store.filter (fun s => startsWithL scope s), ∃ k, k ≤ 9999 ∧
      s = mkNum scope k := by
    intro s hs
    have := List.mem_filter.mp hs
    exact hwf s this.1 this.2
  have hmem_filter : ∀ j, j ≤ 9999 → mkNum scope j ∈ store →
      mkNum scope j ∈ store.filter (fun s => startsWithL scope s) := by
    intro j hj hmem
    exact List.mem_filter.mpr ⟨hmem, startsWithL_append scope (pad4 j)⟩
  unfold maxMatch
  cases hf : store.filter (fun s => startsWithL scope s) with
  | nil =>
    left
    refine ⟨rfl, ?_⟩
    intro j hj hmem
    have := hmem_filter j hj hmem
    rw [hf] at this
    exact List.not_mem_nil _ this
  | cons s rest =>
    right
    obtain ⟨k, hk, rfl⟩ := hfwf s (hf ▸ List.mem_cons_self s rest)
    have hrest : ∀ x ∈ rest, ∃ j, j ≤ 9999 ∧ x = mkNum scope j := by
      intro x hx
      exact hfwf x (hf ▸ List.mem_cons_of_mem _ hx)
    obtain ⟨M, hM, heq, hkM, hbound, hlast⟩ := foldl_maxStep_wf scope rest k hk hrest
    refine ⟨M, hM, ?_, ?_, ?_⟩
    · show (List.foldl maxStep (maxStep none (mkNum scope k)) rest) = _
      exact heq
    · have hsub : store.filter (fun s => startsWithL scope s) ⊆ store := by
        intro x hx
        exact (List.mem_filter.mp hx).1
      rcases hlast with h1 | h1
      · subst h1
        exact hsub (hf ▸ List.mem_cons_self _ _)
      · exact hsub (hf ▸ List.mem_cons_of_mem _ h1)
    · intro j hj hmem
      have := hmem_filter j hj hmem
      rw [hf] at this
      rcases List.mem_cons.mp this with h1 | h1
      · have := mkNum_inj scope j k hj hk h1
        omega
      · exact hbound j hj h1

theorem dr_parse_mkNum : ∀ M : Nat, M ≤ 9999 →
    (match (splitDash (mkNum drScope M)).get? 1 with
     | none => 0
     | some piece => (parseIntPy piece).getD 0) = M := by
  intro M hM
  rw [splitDash_dr M hM]
  show (parseIntPy (pad4 M)).getD 0 = M
  rw [parseIntPy_pad4 M hM]
  rfl

theorem dr_gen_step : ∀ (store : List (List Char)) (M : Nat),
    MaxIs drScope store M → M < 9999 →
    get_next_dr_number store = mkNum drScope (M + 1) ∧
    MaxIs drScope (mkNum drScope (M + 1) :: store) (M + 1) := by
  intro store M hmax hlt
  obtain ⟨hwf, hM9, hbound, hlast⟩ := hmax
  have hnext : get_next_dr_number store = mkNum drScope (M + 1) := by
    rcases maxMatch_spec drScope store hwf with ⟨hnone, hnotin⟩ | ⟨M', hM'9, heq, hmem, hbound'⟩
    · have hM0 : M = 0 := by
        rcases hlast with h | h
        · exact h
        · exact absurd h (hnotin M hM9)
      unfold get_next_dr_number
      rw [hnone, hM0]
    · have hMM : M' = M := by
        have h1 : M' ≤ M := hbound M' hM'9 hmem
        have h2 : M ≤ M' := by
          rcases hlast with h | h
          · omega
          · exact hbound' M hM9 h
        omega
      unfold get_next_dr_number
      rw [heq, hMM]
      rw [dr_parse_mkNum M hM9]
  refine ⟨hnext, ?_, by omega, ?_, Or.inr (List.mem_cons_self _ _)⟩
  · intro s hs hsw
    rcases List.mem_cons.mp hs with h | h
    · exact ⟨M + 1, by omega, h⟩
    · exact hwf s h hsw
  · intro j hj hmem
    rcases List.mem_cons.mp hmem with h | h
    · have := mkNum_inj drScope j (M + 1) hj (by omega) h
      omega
    · have := hbound j hj h
      omega

theorem runDrGen_spec : ∀ (N : Nat) (store : List (List Char)) (M : Nat),
    MaxIs drScope store M → M + N ≤ 9999 →
    (runDrGen N store).1 =
      (List.range N).map (fun i => mkNum drScope (M + 1 + i)) := by
  intro N
  induction N with
  | zero => intro store M _ _; rfl
  | succ n ih =>
    intro store M hmax hle
    obtain ⟨hid, hmax'⟩ := dr_gen_step store M hmax (by omega)
    show get_next_dr_number store ::
        (runDrGen n (get_next_dr_number store :: store)).1 = _
    rw [hid]
    rw [ih (mkNum drScope (M + 1) :: store) (M + 1) hmax' (by omega)]
    rw [List.range_succ_eq_map, List.map_cons, List.map_map]
    congr 1
    apply List.map_congr_left
    intro i _
    show mkNum drScope (M + 1 + 1 + i) = mkNum drScope (M + 1 + (i + 1))
    congr 1
    omega

theorem po_scope_decomp : ∀ year : Nat,
    poScope year = ("PO-".toList ++ natDigits year) ++ ['-'] := by
  intro year
  unfold poScope
  rw [List.append_assoc]

theorem po_parse_mkNum : ∀ (year M : Nat), M ≤ 9999 →
    parseIntPy ((splitDash (mkNum (poScope year) M)).getLastD []) = some M := by
  intro year M hM
  have hdecomp : mkNum (poScope year) M =
      (("PO-".toList ++ natDigits year) ++ ['-']) ++ pad4 M := by
    unfold mkNum
    rw [po_scope_decomp]
  rw [hdecomp, splitDash_last_pad4 _ M hM, parseIntPy_pad4 M hM]

theorem po_gen_step : ∀ (year : Nat) (store : List (List Char)) (M : Nat),
    MaxIs (poScope year) store M → M < 9999 →
    get_next_po_number year store = .ok (mkNum (poScope year) (M + 1)) ∧
    MaxIs (poScope year) (mkNum (poScope year) (M + 1) :: store) (M + 1) := by
  intro year store M hmax hlt
  obtain ⟨hwf, hM9, hbound, hlast⟩ := hmax
  have hnext : get_next_po_number year store = .ok (mkNum (poScope year) (M + 1)) := by
    rcases maxMatch_spec (poScope year) store hwf with
      ⟨hnone, hnotin⟩ | ⟨M', hM'9, heq, hmem, hbound'⟩
    · have hM0 : M = 0 := by
        rcases hlast with h | h
        · exact h
        · exact absurd h (hnotin M hM9)
      unfold get_next_po_number
      rw [hnone, hM0]
    · have hMM : M' = M := by
        have h1 : M' ≤ M := hbound M' hM'9 hmem
        have h2 : M ≤ M' := by
          rcases hlast with h | h
          · omega
          · exact hbound' M hM9 h
        omega
      unfold get_next_po_number
      rw [heq, hMM]
      show (match parseIntPy ((splitDash (mkNum (poScope year) M)).getLastD []) with
        | none => Except.error ()
        | some k => Except.ok (mkNum (poScope year) (k + 1))) =
        Except.ok (mkNum (poScope year) (M + 1))
      rw [po_parse_mkNum year M hM9]
  refine ⟨hnext, ?_, by omega, ?_, Or.inr (List.mem_cons_self _ _)⟩
  · intro s hs hsw
    rcases List.mem_cons.mp hs with h | h
    · exact ⟨M + 1, by omega, h⟩
    · exact hwf s h hsw
  · intro j hj hmem
    rcases List.mem_cons.mp hmem with h | h
    · have := mkNum_inj (poScope year) j (M + 1) hj (by omega) h
      omega
    · have := hbound j hj h
      omega

theorem runPoGen_spec : ∀ (year N : Nat) (store : List (List Char)) (M : Nat),
    MaxIs (poScope year) store M → M + N ≤ 9999 →
    runPoGen year N store =
      some ((List.range N).map (fun i => mkNum (poScope year) (M + 1 + i))) := by
  intro year N
  induction N with
  | zero => intro store M _ _; rfl
  | succ n ih =>
    intro store M hmax hle
    obtain ⟨hid, hmax'⟩ := po_gen_step year store M hmax (by omega)
    show (match get_next_po_number year store with
      | .error _ => none
      | .ok id => (runPoGen year n (id :: store)).map (id :: ·)) = _
    rw [hid]
    show (runPoGen year n (mkNum (poScope year) (M + 1) :: store)).map
      (mkNum (poScope year) (M + 1) :: ·) = _
    rw [ih (mkNum (poScope year) (M + 1) :: store) (M + 1) hmax' (by omega)]
    show some (mkNum (poScope year) (M + 1) ::
      (List.range n).map (fun i => mkNum (poScope year) (M + 1 + 1 + i))) = _
    rw [List.range_succ_eq_map, List.map_cons, List.map_map]
    congr 2
    apply List.map_congr_left
    intro i _
    show mkNum (poScope year) (M + 1 + 1 + i) = mkNum (poScope year) (M + 1 + (i + 1))
    congr 1
    omega

theorem mkNumRun_ordered : ∀ (scope : List Char) (M N : Nat), M + N ≤ 9999 →
    List.Pairwise (fun a b => lexLt a b = true)
      ((List.range N).map (fun i => mkNum scope (M + 1 + i))) ∧
    ((List.range N).map (fun i => mkNum scope (M + 1 + i))).Nodup := by
  intro scope M N hle
  have hpw : List.Pairwise (fun i j : Nat => i < j) (List.range N) :=
    List.pairwise_lt_range N
  have hp : List.Pairwise (fun a b => lexLt a b = true)
      ((List.range N).map (fun i => mkNum scope (M + 1 + i))) := by
    rw [List.pairwise_map]
    refine hpw.imp_of_mem ?_
    intro i j hi hj hij
    have hiN := List.mem_range.mp hi
    have hjN := List.mem_range.mp hj
    exact (lexLt_mkNum scope (M + 1 + i) (M + 1 + j) (by omega) (by omega)).mpr (by omega)
  refine ⟨hp, ?_⟩
  refine hp.imp ?_
  intro a b hab heq
  rw [heq, lexLt_irrefl] at hab
  exact Bool.noConfusion hab

/-- **C9 counterexample.** From a wellformed store already holding
`"6202-9999"` (the state after 9999 allocations), two sequential calls both
return `"6202-10000"`: the lexicographic max-scan ranks `"6202-9999"` above
`"6202-10000"`, so the second call re-parses 9999 and re-allocates the same
identifier — the outputs are neither strictly increasing nor distinct. -/
theorem c9_counterexample_lex_scan_duplicate :
    WfStore drScope ["6202-9999".toList] ∧
    (runDrGen 2 ["6202-9999".toList]).1 =
      ["6202-10000".toList, "6202-10000".toList] ∧
    ¬ (runDrGen 2 ["6202-9999".toList]).1.Nodup := by
  refine ⟨?_, by decide, by decide⟩
  intro s hs _
  refine ⟨9999, le_refl _, ?_⟩
  have hseq : s = "6202-9999".toList := by
    rcases List.mem_cons.mp hs with h | h
    · exact h
    · exact absurd h (List.not_mem_nil _)
  rw [hseq]
  decide

/-- **C9 (amended).** As long as every sequence number in scope stays below
10000 (all suffixes four digits wide), N sequential calls with each result
persisted before the next yield exactly the identifiers `M+1 … M+N` of the
scope, strictly increasing in the binary string order and pairwise
distinct — for both the DR generator and the PO generator.  Once a
five-digit sequence coexists with `9999`, the lexicographic max-scan
breaks this (see the counterexample). -/
theorem c9_sequential_generation :
    (∀ (N : Nat) (store : List (List Char)) (M : Nat),
      MaxIs drScope store M → M + N ≤ 9999 →
      (runDrGen N store).1 =
        (List.range N).map (fun i => mkNum drScope (M + 1 + i)) ∧
      List.Pairwise (fun a b => lexLt a b = true) (runDrGen N store).1 ∧
      (runDrGen N store).1.Nodup) ∧
    (∀ (year N : Nat) (store : List (List Char)) (M : Nat),
      MaxIs (poScope year) store M → M + N ≤ 9999 →
      runPoGen year N store =
        some ((List.range N).map (fun i => mkNum (poScope year) (M + 1 + i))) ∧
      List.Pairwise (fun a b => lexLt a b = true)
        ((List.range N).map (fun i => mkNum (poScope year) (M + 1 + i))) ∧
      ((List.range N).map (fun i => mkNum (poScope year) (M + 1 + i))).Nodup) := by
  constructor
  · intro N store M hmax hle
    have he := runDrGen_spec N store M hmax hle
    have ho := mkNumRun_ordered drScope M N hle
    refine ⟨he, ?_, ?_⟩
    · rw [he]; exact ho.1
    · rw [he]; exact ho.2
  · intro year N store M hmax hle
    exact ⟨runPoGen_spec year N store M hmax hle,
      (mkNumRun_ordered (poScope year) M N hle).1,
      (mkNumRun_ordered (poScope year) M N hle).2⟩

theorem c9_sequential_generation_witness :
    MaxIs drScope [] 0 ∧
    (runDrGen 3 []).1 =
      ["6202-0001".toList, "6202-0002".toList, "6202-0003".toList] ∧
    (runDrGen 3 []).1.Nodup := by
  have hmax : MaxIs drScope [] 0 :=
    ⟨fun s hs _ => absurd hs (List.not_mem_nil _), by omega,
      fun j _ hj => absurd hj (List.not_mem_nil _), Or.inl rfl⟩
  have h := c9_sequential_generation.1 3 [] 0 hmax (by omega)
  exact ⟨hmax, h.1.trans (by decide), h.2.2⟩

end Bondking
